import Mathlib

/-!
# Clipboard bridge of the xf86-video-guac driver

Shallow embedding of `agent.c` and `clipboard.c`, with the parameter parsing of
`settings.c`, the line hooks of `poly.c` and the cursor rendering of
`cursor.c`.  Every call that leaves the
driver (towards the X server through xcb, or towards the remote viewer through
libguac) is recorded as an `Action`; a function of the driver becomes a pure
function producing the ordered list of the actions it performs.  Everything the
driver reads from the outside (replies of the X server, events, the stream
handed out by libguac, the shared clipboard as it is at that moment, the
running flag written by the owning thread) is an explicit argument.

Machine integers are natural numbers; atoms, windows and timestamps are the
32-bit identifiers of the X protocol.
-/

namespace GuacDrv

/-! ## Constants of the X protocol and of libguac used by the driver -/

/-- The null atom, `XCB_ATOM_NONE`. -/
def XCB_ATOM_NONE : Nat := 0

/-- The timestamp placeholder `XCB_CURRENT_TIME`. -/
def XCB_CURRENT_TIME : Nat := 0

/-- Core event code `XCB_SELECTION_REQUEST`. -/
def XCB_SELECTION_REQUEST : Nat := 30

/-- Core event code `XCB_SELECTION_NOTIFY`. -/
def XCB_SELECTION_NOTIFY : Nat := 31

/-- Offset of the selection-notify event within the XFixes event range,
`XCB_XFIXES_SELECTION_NOTIFY`. -/
def XCB_XFIXES_SELECTION_NOTIFY : Nat := 0

/-- Core event code `XCB_CLIENT_MESSAGE`. -/
def XCB_CLIENT_MESSAGE : Nat := 33

/-- The empty event mask `XCB_EVENT_MASK_NO_EVENT`. -/
def XCB_EVENT_MASK_NO_EVENT : Nat := 0

/-- Event mask bit `XCB_EVENT_MASK_PROPERTY_CHANGE`. -/
def XCB_EVENT_MASK_PROPERTY_CHANGE : Nat := 4194304

/-- Window class `XCB_WINDOW_CLASS_COPY_FROM_PARENT`. -/
def XCB_WINDOW_CLASS_COPY_FROM_PARENT : Nat := 0

/-- The placeholder `XCB_COPY_FROM_PARENT`. -/
def XCB_COPY_FROM_PARENT : Nat := 0

/-- Window attribute bit `XCB_CW_EVENT_MASK`. -/
def XCB_CW_EVENT_MASK : Nat := 2048

/-- Property mode `XCB_PROP_MODE_REPLACE`. -/
def XCB_PROP_MODE_REPLACE : Nat := 0

/-- XFixes mask bit `XCB_XFIXES_SELECTION_EVENT_MASK_SET_SELECTION_OWNER`. -/
def XCB_XFIXES_SELECTION_EVENT_MASK_SET_SELECTION_OWNER : Nat := 1

/-- XFixes mask bit `XCB_XFIXES_SELECTION_EVENT_MASK_SELECTION_WINDOW_DESTROY`. -/
def XCB_XFIXES_SELECTION_EVENT_MASK_SELECTION_WINDOW_DESTROY : Nat := 2

/-- XFixes mask bit `XCB_XFIXES_SELECTION_EVENT_MASK_SELECTION_CLIENT_CLOSE`. -/
def XCB_XFIXES_SELECTION_EVENT_MASK_SELECTION_CLIENT_CLOSE : Nat := 4

/-- Size limit of the shared clipboard, `GUAC_DRV_CLIPBOARD_MAX_BYTES`
(clipboard.h). -/
def GUAC_DRV_CLIPBOARD_MAX_BYTES : Nat := 262144

/-- Log levels of libguac that the driver uses. -/
inductive guac_client_log_level where
  | GUAC_LOG_ERROR
  | GUAC_LOG_WARNING
  | GUAC_LOG_INFO
  | GUAC_LOG_DEBUG
  deriving DecidableEq, Repr

open guac_client_log_level

/-! ## Data -/

/-- The 32-byte generic event of xcb: a response type, one pad byte, a 16-bit
sequence number and seven 32-bit words.  The driver casts it to the event
structure selected by the response type; the casts are the view functions
below. -/
structure xcb_generic_event_t where
  response_type : Nat
  pad0 : Nat
  sequence : Nat
  pad_0 : Nat
  pad_1 : Nat
  pad_2 : Nat
  pad_3 : Nat
  pad_4 : Nat
  pad_5 : Nat
  pad_6 : Nat
  deriving DecidableEq, Repr

/-- Fields of `xcb_selection_request_event_t` the driver reads. -/
structure xcb_selection_request_event_t where
  time : Nat
  owner : Nat
  requestor : Nat
  selection : Nat
  target : Nat
  property : Nat
  deriving DecidableEq, Repr

/-- Fields of `xcb_selection_notify_event_t` the driver reads or assigns.  The
driver allocates the reply it sends with `malloc` and assigns exactly these
fields. -/
structure xcb_selection_notify_event_t where
  response_type : Nat
  time : Nat
  requestor : Nat
  selection : Nat
  target : Nat
  property : Nat
  deriving DecidableEq, Repr

/-- The cast `(xcb_selection_request_event_t*) event`. -/
def as_selection_request (event : xcb_generic_event_t) :
    xcb_selection_request_event_t :=
  { time := event.pad_0, owner := event.pad_1, requestor := event.pad_2,
    selection := event.pad_3, target := event.pad_4, property := event.pad_5 }

/-- The cast `(xcb_selection_notify_event_t*) event`. -/
def as_selection_notify (event : xcb_generic_event_t) :
    xcb_selection_notify_event_t :=
  { response_type := event.response_type, time := event.pad_0,
    requestor := event.pad_1, selection := event.pad_2, target := event.pad_3,
    property := event.pad_4 }

/-- Reply to a property read: format, number of items, and the bytes that
follow the fixed part of the reply. -/
structure xcb_get_property_reply_t where
  format : Nat
  value_len : Nat
  value : List Nat
  deriving DecidableEq, Repr

/-- Length in bytes of the value of a reply, `xcb_get_property_value_length`. -/
def xcb_get_property_value_length (r : xcb_get_property_reply_t) : Nat :=
  r.value_len * (r.format / 8)

/-- The shared clipboard of the session (`guac_common_clipboard`): content
type, the bytes of the buffer, the number of bytes of it in use, and the
capacity of the buffer. -/
structure guac_common_clipboard where
  mimetype : String
  buffer : List Nat
  length : Nat
  available : Nat
  deriving DecidableEq, Repr

/-- Fields of `xcb_client_message_event_t`; the driver zeroes the structure
with `memset` before assigning, so every field is determined. -/
structure xcb_client_message_event_t where
  response_type : Nat
  format : Nat
  sequence : Nat
  window : Nat
  type : Nat
  data32 : List Nat
  deriving DecidableEq, Repr

/-- Data handed to `xcb_change_property`, that is the `data_len` items found
at the pointer passed: atoms (format 32) or bytes (format 8). -/
inductive PropertyData where
  | atoms (xs : List Nat)
  | bytes (xs : List Nat)
  deriving DecidableEq, Repr

/-- The calls by which the driver acts on the X server and on the remote
viewer, with their arguments (the connection, user and socket are fixed per
agent and left out). -/
inductive Action where
  | get_atom (name : String)
  | init_xfixes
  | user_log (level : guac_client_log_level) (message : String)
  | xfixes_select_selection_input_checked (window selection mask : Nat)
  | wait_for_event
  | convert_selection (requestor selection target property time : Nat)
  | flush
  | get_property (delete window property type long_offset long_length : Nat)
  | get_property_reply
  | alloc_stream
  | send_clipboard (stream : Nat) (mimetype : String)
  | send_blob (stream : Nat) (data : List Nat)
  | send_end (stream : Nat)
  | free_stream (stream : Nat)
  | socket_flush
  | change_property (mode window property type format data_len : Nat)
      (data : PropertyData)
  | send_event (propagate destination event_mask : Nat)
      (event : xcb_selection_notify_event_t)
  | set_selection_owner_checked (owner selection time : Nat)
  | change_property_checked (mode window property type format data_len : Nat)
      (data : PropertyData)
  | request_check
  | set_thread_running (value : Bool)
  | send_client_message (propagate destination event_mask : Nat)
      (event : xcb_client_message_event_t)
  | pthread_join
  | destroy_window (window : Nat)
  | disconnect
  | free_agent
  | get_connection
  | malloc_agent
  | generate_id
  | create_window (depth wid parent x y width height border_width window_class
      visual value_mask : Nat) (value_list : List Nat)
  | pthread_create
  | user_log_format (level : guac_client_log_level) (format : String)
      (args : List Int)
  | randr_set_screen_size_checked (window width height mm_width mm_height : Nat)
  deriving DecidableEq, Repr

/-- How a run of the worker ends: it returned, or it is still inside its event
loop once the inputs supplied are used up. -/
inductive Outcome where
  | returned
  | running
  deriving DecidableEq, Repr

/-- The agent: the scratch window it owns (`agent->dummy`). -/
structure guac_drv_agent where
  dummy : Nat
  deriving DecidableEq, Repr

/-- What the X server answers during startup: the atom for each name
(`guac_drv_get_atom`, `XCB_ATOM_NONE` when unresolved) and the first event code
of XFixes (`guac_drv_init_xfixes`, `none` for `NULL`). -/
structure XServer where
  get_atom : String → Nat
  init_xfixes : Option Nat

/-- Atoms the worker has resolved and the first event code of XFixes. -/
structure AgentAtoms where
  utf8_string : Nat
  xsel_data : Nat
  xa_clipboard : Nat
  xa_targets : Nat
  xfixes_first_event : Nat
  deriving DecidableEq, Repr

/-- What one turn of the event loop reads from outside: the running flag at the
loop head, the event returned by `xcb_wait_for_event` (`none` for `NULL`), the
outcome of the property read (error flag and reply), the stream handed out by
`guac_user_alloc_stream`, and the shared clipboard at that moment. -/
structure LoopInput where
  thread_running : Bool
  event : Option xcb_generic_event_t
  property_error : Bool
  property_reply : xcb_get_property_reply_t
  stream : Nat
  clipboard : guac_common_clipboard
  deriving DecidableEq, Repr

/-! ## agent.c -/

/-- Body of `guac_drv_send_property_value_as_clipboard`. -/
def guac_drv_send_property_value_as_clipboard (window property type : Nat)
    (error : Bool) (property_reply : xcb_get_property_reply_t) (stream : Nat) :
    List Action :=
  [Action.get_property 1 window property type 0 1024,
   Action.get_property_reply] ++
  (if error ∨ property_reply.format ≠ 8 then []
   else
    [Action.alloc_stream,
     Action.send_clipboard stream "text/plain",
     Action.send_blob stream
       (property_reply.value.take (xcb_get_property_value_length property_reply)),
     Action.send_end stream,
     Action.free_stream stream,
     Action.socket_flush])

/-- The branch of the event loop for `XCB_SELECTION_REQUEST`. -/
def handle_selection_request (a : AgentAtoms)
    (clipboard : guac_common_clipboard)
    (selection_req : xcb_selection_request_event_t) : List Action :=
  let notify (property : Nat) : List Action :=
    [Action.send_event 0 selection_req.requestor 0
       { response_type := XCB_SELECTION_NOTIFY,
         time := selection_req.time,
         requestor := selection_req.requestor,
         selection := selection_req.selection,
         target := selection_req.target,
         property := property },
     Action.flush]
  if selection_req.target = a.xa_targets then
    [Action.change_property XCB_PROP_MODE_REPLACE selection_req.requestor
       selection_req.property selection_req.target 32 2
       (PropertyData.atoms [a.utf8_string, a.xa_targets])] ++
    notify selection_req.property
  else if selection_req.selection = a.xa_clipboard
      ∧ selection_req.target = a.utf8_string then
    [Action.change_property XCB_PROP_MODE_REPLACE selection_req.requestor
       selection_req.property selection_req.target 8 clipboard.length
       (PropertyData.bytes (clipboard.buffer.take clipboard.length))] ++
    notify selection_req.property
  else
    [Action.user_log GUAC_LOG_WARNING
       "Window requested unsupported selection/target."] ++
    notify XCB_ATOM_NONE

/-- One turn of the event loop once an event has been received: the dispatch
on `event->response_type & 0x7F` and the branch taken. -/
def handle_event (agent : guac_drv_agent) (a : AgentAtoms) (i : LoopInput)
    (event : xcb_generic_event_t) : List Action :=
  let event_type := event.response_type % 128
  if event_type = a.xfixes_first_event + XCB_XFIXES_SELECTION_NOTIFY then
    [Action.convert_selection agent.dummy a.xa_clipboard a.utf8_string
       a.xsel_data XCB_CURRENT_TIME,
     Action.flush]
  else if event_type = XCB_SELECTION_NOTIFY then
    guac_drv_send_property_value_as_clipboard
      (as_selection_notify event).requestor (as_selection_notify event).property
      a.utf8_string i.property_error i.property_reply i.stream
  else if event_type = XCB_SELECTION_REQUEST then
    handle_selection_request a i.clipboard (as_selection_request event)
  else []

/-- The event loop of `guac_drv_agent_thread`, `while (agent->thread_running)`,
with the log line and `return NULL` that follow it. -/
def agent_event_loop (agent : guac_drv_agent) (a : AgentAtoms) :
    List LoopInput → List Action × Outcome
  | [] => ([], Outcome.running)
  | i :: rest =>
    if i.thread_running then
      match i.event with
      | none =>
        ([Action.wait_for_event,
          Action.user_log GUAC_LOG_INFO "End of agent thread."],
         Outcome.returned)
      | some event =>
        let r := agent_event_loop agent a rest
        (Action.wait_for_event :: handle_event agent a i event ++ r.1, r.2)
    else
      ([Action.user_log GUAC_LOG_INFO "End of agent thread."],
       Outcome.returned)

/-- The worker `guac_drv_agent_thread`: startup, then the event loop. -/
def guac_drv_agent_thread (agent : guac_drv_agent) (x : XServer)
    (inputs : List LoopInput) : List Action × Outcome :=
  let utf8_string := x.get_atom "UTF8_STRING"
  if utf8_string = XCB_ATOM_NONE then
    ([Action.get_atom "UTF8_STRING",
      Action.user_log GUAC_LOG_WARNING
        "X server does not support the UTF8_STRING atom. Clipboard will not work."],
     Outcome.returned)
  else
  let xsel_data := x.get_atom "XSEL_DATA"
  if xsel_data = XCB_ATOM_NONE then
    ([Action.get_atom "UTF8_STRING", Action.get_atom "XSEL_DATA",
      Action.user_log GUAC_LOG_WARNING
        "X server does not support the XSEL_DATA atom. Clipboard will not work."],
     Outcome.returned)
  else
  let xa_clipboard := x.get_atom "CLIPBOARD"
  if xa_clipboard = XCB_ATOM_NONE then
    ([Action.get_atom "UTF8_STRING", Action.get_atom "XSEL_DATA",
      Action.get_atom "CLIPBOARD",
      Action.user_log GUAC_LOG_WARNING
        "X server does not support the CLIPBOARD atom. Clipboard will not work."],
     Outcome.returned)
  else
  let xa_targets := x.get_atom "TARGETS"
  if xa_targets = XCB_ATOM_NONE then
    ([Action.get_atom "UTF8_STRING", Action.get_atom "XSEL_DATA",
      Action.get_atom "CLIPBOARD", Action.get_atom "TARGETS",
      Action.user_log GUAC_LOG_WARNING
        "X server does not support the TARGETS atom. Clipboard will not work."],
     Outcome.returned)
  else
  match x.init_xfixes with
  | none =>
    ([Action.get_atom "UTF8_STRING", Action.get_atom "XSEL_DATA",
      Action.get_atom "CLIPBOARD", Action.get_atom "TARGETS",
      Action.init_xfixes,
      Action.user_log GUAC_LOG_WARNING
        "X server does not have the XFixes extension. Clipboard will not work."],
     Outcome.returned)
  | some first_event =>
    let r := agent_event_loop agent
      { utf8_string := utf8_string, xsel_data := xsel_data,
        xa_clipboard := xa_clipboard, xa_targets := xa_targets,
        xfixes_first_event := first_event } inputs
    ([Action.get_atom "UTF8_STRING", Action.get_atom "XSEL_DATA",
      Action.get_atom "CLIPBOARD", Action.get_atom "TARGETS",
      Action.init_xfixes,
      Action.xfixes_select_selection_input_checked agent.dummy xa_clipboard
        (XCB_XFIXES_SELECTION_EVENT_MASK_SELECTION_CLIENT_CLOSE
          ||| XCB_XFIXES_SELECTION_EVENT_MASK_SELECTION_WINDOW_DESTROY
          ||| XCB_XFIXES_SELECTION_EVENT_MASK_SET_SELECTION_OWNER)] ++ r.1,
     r.2)

/-- What `guac_drv_agent_alloc` reads from outside once connected: the root
window of the first screen of the setup, the identifier handed out by
`xcb_generate_id`, and the value returned by `pthread_create`. -/
structure AllocInput where
  screen_root : Nat
  generated_id : Nat
  pthread_create : Int
  deriving DecidableEq, Repr

/-- The agent returned by `guac_drv_agent_alloc` with its running flag. -/
structure AllocatedAgent where
  agent : guac_drv_agent
  thread_running : Bool
  deriving DecidableEq, Repr

/-- The function `guac_drv_agent_alloc`; `connection` is `none` when
`guac_drv_get_connection` returns `NULL`, and the result is `none` for
`NULL`. -/
def guac_drv_agent_alloc (connection : Option AllocInput) :
    Option AllocatedAgent × List Action :=
  match connection with
  | none => (none, [Action.get_connection])
  | some c =>
    let dummy := c.generated_id
    let start : List Action :=
      [Action.get_connection,
       Action.malloc_agent,
       Action.generate_id,
       Action.create_window 0 dummy c.screen_root 0 0 1 1 0
         XCB_WINDOW_CLASS_COPY_FROM_PARENT XCB_COPY_FROM_PARENT
         XCB_CW_EVENT_MASK [XCB_EVENT_MASK_PROPERTY_CHANGE],
       Action.flush,
       Action.pthread_create]
    if c.pthread_create = 0 then
      (some { agent := { dummy := dummy }, thread_running := true },
       start ++ [Action.set_thread_running true])
    else
      (some { agent := { dummy := dummy }, thread_running := false },
       start ++
       [Action.user_log GUAC_LOG_WARNING
          "Unable to start agent thread. Clipboard access will not work.",
        Action.set_thread_running false])

/-- The function `guac_drv_agent_free`, for an agent whose running flag has the
value `thread_running`. -/
def guac_drv_agent_free (agent : guac_drv_agent) (thread_running : Bool)
    (x : XServer) : List Action :=
  (if thread_running then
    [Action.set_thread_running false,
     Action.get_atom "GUAC_DRV_AGENT_FREE",
     Action.send_client_message 0 agent.dummy XCB_EVENT_MASK_NO_EVENT
       { response_type := XCB_CLIENT_MESSAGE,
         format := 32,
         sequence := 0,
         window := agent.dummy,
         type := x.get_atom "GUAC_DRV_AGENT_FREE",
         data32 := [0, 0, 0, 0, 0] },
     Action.flush,
     Action.pthread_join]
   else []) ++
  [Action.destroy_window agent.dummy,
   Action.disconnect,
   Action.free_agent]

/-- Conversion of an `int` to the `uint16_t` parameter of a request. -/
def to_uint16 (v : Int) : Nat := (v % 65536).toNat

/-- Conversion of an `int` to the `uint32_t` parameter of a request. -/
def to_uint32 (v : Int) : Nat := (v % 4294967296).toNat

/-- The function `guac_drv_agent_resize_display`; `dpi` is
`user->info.optimal_resolution` and `check_error` tells whether
`xcb_request_check` reports an error.  The arithmetic on `int` is exact (signed
overflow is undefined in C) and `/` truncates; the sizes are converted to the
16-bit and 32-bit parameters of `xcb_randr_set_screen_size_checked`. -/
def guac_drv_agent_resize_display (agent : guac_drv_agent) (dpi : Int)
    (check_error : Bool) (w h : Int) : List Action × Int :=
  let width_mm := ((w * 254).tdiv dpi).tdiv 10
  let height_mm := ((h * 254).tdiv dpi).tdiv 10
  let w := (w * 96).tdiv dpi
  let h := (h * 96).tdiv dpi
  ([Action.randr_set_screen_size_checked agent.dummy (to_uint16 w)
      (to_uint16 h) (to_uint32 width_mm) (to_uint32 height_mm),
    Action.flush,
    Action.user_log_format GUAC_LOG_DEBUG
      "Requested screen resize to %ix%i pixels (%ix%i mm)."
      [w, h, width_mm, height_mm],
    Action.request_check],
   if check_error then 1 else 0)

/-! ## The X server side of a property read -/

/-- The reply the X11 protocol prescribes for GetProperty on a property of
format 8 holding the bytes `stored`, read with the type it has: the bytes from
`4 * long_offset` on, at most `4 * long_length` of them.  This describes the
server, not the driver. -/
def x11_get_property_reply (stored : List Nat) (long_offset long_length : Nat) :
    xcb_get_property_reply_t :=
  let value := (stored.drop (4 * long_offset)).take (4 * long_length)
  { format := 8, value_len := value.length, value := value }

/-! ## clipboard.c -/

/-- The handlers a stream can carry. -/
inductive StreamHandler where
  | guac_drv_clipboard_blob_handler
  | guac_drv_clipboard_end_handler
  deriving DecidableEq, Repr

/-- The fields of `guac_stream` the driver assigns. -/
structure guac_stream where
  blob_handler : Option StreamHandler
  end_handler : Option StreamHandler
  deriving DecidableEq, Repr

/-- Modelled from the spec: `guac_common_clipboard_reset` of common/clipboard.c,
which is not among the sources.  It "resets the Shared Clipboard Buffer,
discarding prior contents, and records the new content type". -/
def guac_common_clipboard_reset (clipboard : guac_common_clipboard)
    (mimetype : String) : guac_common_clipboard :=
  { clipboard with mimetype := mimetype, buffer := [], length := 0 }

/-- Modelled from the spec: `guac_common_clipboard_append` of
common/clipboard.c, which is not among the sources.  It "appends to the
buffer; no maximum enforced beyond the platform's practical property-size
ceiling": the bytes are stored after those in use, as far as the capacity of
the buffer allows. -/
def guac_common_clipboard_append (clipboard : guac_common_clipboard)
    (data : List Nat) : guac_common_clipboard :=
  let stored := data.take (clipboard.available - clipboard.length)
  { clipboard with
      buffer := clipboard.buffer.take clipboard.length ++ stored,
      length := clipboard.length + stored.length }

/-- Result of a stream handler: the shared clipboard and the stream after the
call, the actions performed, and the value returned. -/
structure HandlerResult where
  clipboard : guac_common_clipboard
  stream : guac_stream
  actions : List Action
  ret : Int
  deriving DecidableEq, Repr

/-- The handler `guac_drv_clipboard_handler`. -/
def guac_drv_clipboard_handler (clipboard : guac_common_clipboard)
    (stream : guac_stream) (mimetype : String) : HandlerResult :=
  { clipboard := guac_common_clipboard_reset clipboard mimetype,
    stream :=
      { stream with
          blob_handler := some StreamHandler.guac_drv_clipboard_blob_handler,
          end_handler := some StreamHandler.guac_drv_clipboard_end_handler },
    actions := [],
    ret := 0 }

/-- The handler `guac_drv_clipboard_blob_handler`; `data` holds the `length`
bytes received. -/
def guac_drv_clipboard_blob_handler (clipboard : guac_common_clipboard)
    (stream : guac_stream) (data : List Nat) : HandlerResult :=
  { clipboard := guac_common_clipboard_append clipboard data,
    stream := stream,
    actions := [],
    ret := 0 }

/-- The handler `guac_drv_clipboard_end_handler`.  `owner_error` and
`property_error` tell whether `xcb_request_check` reports an error for the
ownership request and for the property write. -/
def guac_drv_clipboard_end_handler (agent : guac_drv_agent) (x : XServer)
    (owner_error property_error : Bool) (clipboard : guac_common_clipboard)
    (stream : guac_stream) : HandlerResult :=
  let utf8_string := x.get_atom "UTF8_STRING"
  let xa_clipboard := x.get_atom "CLIPBOARD"
  let actions : List Action :=
    if utf8_string = XCB_ATOM_NONE then
      [Action.get_atom "UTF8_STRING",
       Action.user_log GUAC_LOG_WARNING
         "X server does not support the UTF8_STRING atom. Clipboard will not work."]
    else if xa_clipboard = XCB_ATOM_NONE then
      [Action.get_atom "UTF8_STRING", Action.get_atom "CLIPBOARD",
       Action.user_log GUAC_LOG_WARNING
         "X server does not support the CLIPBOARD atom. Pasting into clipboard will not work."]
    else
      [Action.get_atom "UTF8_STRING", Action.get_atom "CLIPBOARD",
       Action.set_selection_owner_checked agent.dummy xa_clipboard
         XCB_CURRENT_TIME,
       Action.request_check] ++
      (if owner_error then
        [Action.user_log GUAC_LOG_ERROR "Failed to set clipbaord owner."]
       else
        [Action.change_property_checked XCB_PROP_MODE_REPLACE agent.dummy
           xa_clipboard utf8_string 8 clipboard.length
           (PropertyData.bytes (clipboard.buffer.take clipboard.length)),
         Action.request_check] ++
        (if property_error then
          [Action.user_log GUAC_LOG_ERROR "Failed to change clipboard property."]
         else []))
  { clipboard := clipboard, stream := stream, actions := actions, ret := 0 }

/-! ## settings.c -/

/-- The default `GUAC_DRV_DEFAULT_RECORDING_NAME` (settings.h). -/
def GUAC_DRV_DEFAULT_RECORDING_NAME : String := "guac_recording"

/-- The array `GUAC_DRV_CLIENT_ARGS` up to its `NULL` terminator;
`enable_common_ssh` tells whether `ENABLE_COMMON_SSH` is defined. -/
def GUAC_DRV_CLIENT_ARGS (enable_common_ssh : Bool) : List String :=
  ["read-only"] ++
  (if enable_common_ssh then
    ["enable-sftp", "sftp-hostname", "sftp-port", "sftp-username",
     "sftp-password", "sftp-private-key", "sftp-passphrase", "sftp-directory"]
   else []) ++
  ["force-lossless", "recording-path", "recording-name",
   "recording-exclude-output", "recording-exclude-mouse",
   "recording-include-keys", "create-recording-path"]

/-- The enumerators of `enum GUAC_DRV_ARGS_IDX` in the order declared; the
value of an enumerator is its position. -/
def GUAC_DRV_ARGS_IDX (enable_common_ssh : Bool) : List String :=
  ["IDX_READ_ONLY"] ++
  (if enable_common_ssh then
    ["IDX_ENABLE_SFTP", "IDX_SFTP_HOSTNAME", "IDX_SFTP_PORT",
     "IDX_SFTP_USERNAME", "IDX_SFTP_PASSWORD", "IDX_SFTP_PRIVATE_KEY",
     "IDX_SFTP_PASSPHRASE", "IDX_SFTP_DIRECTORY"]
   else []) ++
  ["IDX_FORCE_LOSSLESS", "IDX_RECORDING_PATH", "IDX_RECORDING_NAME",
   "IDX_RECORDING_EXCLUDE_OUTPUT", "IDX_RECORDING_EXCLUDE_MOUSE",
   "IDX_RECORDING_INCLUDE_KEYS", "IDX_CREATE_RECORDING_PATH",
   "DRV_ARGS_COUNT"]

/-- The value of an enumerator of `enum GUAC_DRV_ARGS_IDX`. -/
def args_idx (enable_common_ssh : Bool) (name : String) : Nat :=
  (GUAC_DRV_ARGS_IDX enable_common_ssh).indexOf name

/-- The enumerator `DRV_ARGS_COUNT`. -/
def DRV_ARGS_COUNT (enable_common_ssh : Bool) : Nat :=
  args_idx enable_common_ssh "DRV_ARGS_COUNT"

/-- The structure `guac_drv_settings`; the SFTP fields exist only when
`ENABLE_COMMON_SSH` is defined and keep the zero of `calloc` otherwise. -/
structure guac_drv_settings where
  read_only : Bool
  enable_sftp : Bool
  sftp_hostname : Option String
  sftp_port : Option String
  sftp_username : Option String
  sftp_password : Option String
  sftp_private_key : Option String
  sftp_passphrase : Option String
  sftp_directory : Option String
  lossless : Int
  recording_path : Option String
  recording_name : Option String
  create_recording_path : Bool
  recording_exclude_output : Bool
  recording_exclude_mouse : Bool
  recording_include_keys : Bool
  keep_alive : Bool
  deriving DecidableEq, Repr

/-- The parsers of libguac the driver calls, `guac_user_parse_args_boolean` and
`guac_user_parse_args_string`, as functions of the values given, the index and
the default (`none` for `NULL`). -/
structure ArgParsers where
  boolean : List String → Nat → Bool → Bool
  string : List String → Nat → Option String → Option String

/-- The function `guac_drv_parse_args`; the result is `none` for `NULL`. -/
def guac_drv_parse_args (enable_common_ssh : Bool) (p : ArgParsers)
    (argc : Int) (argv : List String) :
    Option guac_drv_settings × List Action :=
  let idx := args_idx enable_common_ssh
  if argc ≠ (DRV_ARGS_COUNT enable_common_ssh : Int) then
    (none,
     [Action.user_log_format GUAC_LOG_WARNING
        "Incorrect number of connection parameters provided: expected %i, got %i."
        [(DRV_ARGS_COUNT enable_common_ssh : Int), argc]])
  else
    (some
      { read_only := p.boolean argv (idx "IDX_READ_ONLY") false,
        enable_sftp :=
          if enable_common_ssh then
            p.boolean argv (idx "IDX_ENABLE_SFTP") false
          else false,
        sftp_hostname :=
          if enable_common_ssh then
            p.string argv (idx "IDX_SFTP_HOSTNAME") (some "localhost")
          else none,
        sftp_port :=
          if enable_common_ssh then
            p.string argv (idx "IDX_SFTP_PORT") (some "22")
          else none,
        sftp_username :=
          if enable_common_ssh then
            p.string argv (idx "IDX_SFTP_USERNAME") (some "")
          else none,
        sftp_password :=
          if enable_common_ssh then
            p.string argv (idx "IDX_SFTP_PASSWORD") (some "")
          else none,
        sftp_private_key :=
          if enable_common_ssh then
            p.string argv (idx "IDX_SFTP_PRIVATE_KEY") none
          else none,
        sftp_passphrase :=
          if enable_common_ssh then
            p.string argv (idx "IDX_SFTP_PASSPHRASE") (some "")
          else none,
        sftp_directory :=
          if enable_common_ssh then
            p.string argv (idx "IDX_SFTP_DIRECTORY") none
          else none,
        lossless :=
          if p.boolean argv (idx "IDX_FORCE_LOSSLESS") false then 1 else 0,
        recording_path := p.string argv (idx "IDX_RECORDING_PATH") none,
        recording_name :=
          p.string argv (idx "IDX_RECORDING_NAME")
            (some GUAC_DRV_DEFAULT_RECORDING_NAME),
        recording_exclude_output :=
          p.boolean argv (idx "IDX_RECORDING_EXCLUDE_OUTPUT") false,
        recording_exclude_mouse :=
          p.boolean argv (idx "IDX_RECORDING_EXCLUDE_MOUSE") false,
        recording_include_keys :=
          p.boolean argv (idx "IDX_RECORDING_INCLUDE_KEYS") false,
        create_recording_path :=
          p.boolean argv (idx "IDX_CREATE_RECORDING_PATH") false,
        keep_alive := false },
     [])

/-! ## poly.c -/

/-- Coordinate mode `CoordModeOrigin` of the X protocol. -/
def CoordModeOrigin : Int := 0

/-- Coordinate mode `CoordModePrevious` of the X protocol. -/
def CoordModePrevious : Int := 1

/-- A point of a request, `DDXPointRec`. -/
structure DDXPointRec where
  x : Int
  y : Int
  deriving DecidableEq, Repr

/-- A rectangle of a request, `xRectangle`. -/
structure xRectangle where
  x : Int
  y : Int
  width : Int
  height : Int
  deriving DecidableEq, Repr

/-- The field of the graphics context the claims speak of, the line width. -/
structure GC where
  lineWidth : Nat
  deriving DecidableEq, Repr

/-- What the drawing hooks do: the call of the framebuffer routine, the copy of
a framebuffer region to the drawable of the driver (the arguments handed to
`GUAC_DRV_DRAWABLE_CLIP` with `guac_drv_drawable_copy_fb`: source position,
width, height, destination position, before clipping), and the touch of the
display. -/
inductive DrawOp where
  | fbPolyLine (mode npt : Int)
  | fbPolyRectangle (nrects : Int)
  | copy_fb (srcx srcy w h dstx dsty : Int)
  | display_touch
  deriving DecidableEq, Repr

/-- The function `guac_drv_copy_line`; `is_window` tells whether
`guac_drv_get_drawable` yields a drawable of the driver. -/
def guac_drv_copy_line (is_window : Bool) (_gc : GC) (x1 y1 x2 y2 : Int) :
    List DrawOp :=
  if is_window then
    [DrawOp.copy_fb x1 y1 (x2 - x1) (y2 - y1) x1 y1, DrawOp.display_touch]
  else []

/-- The loop of `guac_drv_polyline` over the points after the first, from the
previous point `(x1, y1)`. -/
def polyline_loop (is_window : Bool) (gc : GC) (mode : Int) :
    Int → Int → List DDXPointRec → List DrawOp
  | _, _, [] => []
  | x1, y1, current :: rest =>
    let x2 := if mode = CoordModePrevious then current.x + x1 else current.x
    let y2 := if mode = CoordModePrevious then current.y + y1 else current.y
    guac_drv_copy_line is_window gc x1 y1 x2 y2
      ++ polyline_loop is_window gc mode x2 y2 rest

/-- The function `guac_drv_polyline` on the `npt` points `init`. -/
def guac_drv_polyline (is_window : Bool) (gc : GC) (mode npt : Int)
    (init : List DDXPointRec) : List DrawOp :=
  DrawOp.fbPolyLine mode npt ::
  (if npt < 2 then []
   else
    match init with
    | [] => []
    | first :: rest =>
      polyline_loop is_window gc mode first.x first.y
        (rest.take (npt - 1).toNat))

/-- The body of the loop of `guac_drv_polyrectangle` for one rectangle. -/
def polyrectangle_body (is_window : Bool) (gc : GC) (rect : xRectangle) :
    List DrawOp :=
  let left := rect.x
  let top := rect.y
  let right := rect.x + rect.width
  let bottom := rect.y + rect.width
  guac_drv_copy_line is_window gc left top right top
    ++ guac_drv_copy_line is_window gc right top right bottom
    ++ guac_drv_copy_line is_window gc right bottom left bottom
    ++ guac_drv_copy_line is_window gc left bottom left top

/-- The function `guac_drv_polyrectangle` on the `nrects` rectangles
`rects`. -/
def guac_drv_polyrectangle (is_window : Bool) (gc : GC) (nrects : Int)
    (rects : List xRectangle) : List DrawOp :=
  DrawOp.fbPolyRectangle nrects ::
  ((rects.take nrects.toNat).map (polyrectangle_body is_window gc)).flatten

/-- Whether a drawing action copies a framebuffer region. -/
def DrawOp.is_copy_fb : DrawOp → Bool
  | DrawOp.copy_fb _ _ _ _ _ _ => true
  | _ => false

/-- The vertices after a given one: each point itself in absolute mode, the
previous vertex plus the point in `CoordModePrevious`. -/
def vertices_after (mode : Int) : DDXPointRec → List DDXPointRec →
    List DDXPointRec
  | _, [] => []
  | previous, p :: rest =>
    let v : DDXPointRec :=
      if mode = CoordModePrevious then
        { x := p.x + previous.x, y := p.y + previous.y }
      else p
    v :: vertices_after mode v rest

/-- The vertices q of a point list p: q[0] = p[0], then as `vertices_after`
tells. -/
def polyline_vertices (mode : Int) : List DDXPointRec → List DDXPointRec
  | [] => []
  | first :: rest => first :: vertices_after mode first rest

/-- The lines joining each vertex of a list to the next, as calls of
`guac_drv_copy_line`. -/
def lines_between (is_window : Bool) (gc : GC) : List DDXPointRec →
    List (List DrawOp)
  | [] => []
  | [_] => []
  | a :: b :: rest =>
    guac_drv_copy_line is_window gc a.x a.y b.x b.y
      :: lines_between is_window gc (b :: rest)

/-! ## cursor.c -/

/-- The fields of `CursorBits` the driver reads: the source and mask bitmaps
as arrays of 32-bit words, the ARGB image if there is one, size and hotspot. -/
structure CursorBits where
  source : Nat → Nat
  mask : Nat → Nat
  argb : Option (Nat → Nat)
  width : Nat
  height : Nat
  xhot : Nat
  yhot : Nat

/-- The fields of `CursorRec` the driver reads. -/
structure CursorRec where
  bits : CursorBits
  foreRed : Nat
  foreGreen : Nat
  foreBlue : Nat
  backRed : Nat
  backGreen : Nat
  backBlue : Nat

/-- The cursor of the driver, `guac_drv_cursor`: the image as an array of
pixels, size and hotspot. -/
structure guac_drv_cursor where
  image : Nat → Nat
  width : Nat
  height : Nat
  hotspot_x : Nat
  hotspot_y : Nat

/-- The colour computed from three 16-bit components in
`guac_drv_cursor_render`. -/
def cursor_color (red green blue : Nat) : Nat :=
  0xFF000000 ||| ((0xFF &&& red) <<< 16) ||| ((0xFF &&& green) <<< 8)
    ||| (0xFF &&& blue)

/-- The inner loop of `guac_drv_cursor_render`: `remaining` pixels of a row are
still to be written, `dst` and `argb_at` are the positions of the pointers
`dst` and `argb`, `src` and `mask` the words as shifted so far. -/
def cursor_render_row (use_argb : Bool) (fg bg : Nat) (argb : Nat → Nat) :
    (remaining : Nat) → (dst argb_at src mask : Nat) → (Nat → Nat) → (Nat → Nat)
  | 0, _, _, _, _, image => image
  | remaining + 1, dst, argb_at, src, mask, image =>
    let pixel :=
      if mask &&& 1 ≠ 0 then
        (if use_argb then argb argb_at ||| 0xFF000000
         else if src &&& 1 ≠ 0 then fg else bg)
      else 0
    cursor_render_row use_argb fg bg argb remaining (dst + 1) (argb_at + 1)
      (src >>> 1) (mask >>> 1) (Function.update image dst pixel)

/-- The outer loop of `guac_drv_cursor_render`: `remaining` rows are still to
be written, `row` is the position of `src_row` and `mask_row`, `dst_row` that
of the pointer of the same name, `argb_at` that of `argb`; `max_width` is
`GUAC_DRV_CURSOR_MAX_WIDTH`. -/
def cursor_render_rows (max_width : Nat) (use_argb : Bool) (fg bg : Nat)
    (argb source mask : Nat → Nat) (width : Nat) :
    (remaining : Nat) → (row dst_row argb_at : Nat) → (Nat → Nat) → (Nat → Nat)
  | 0, _, _, _, image => image
  | remaining + 1, row, dst_row, argb_at, image =>
    cursor_render_rows max_width use_argb fg bg argb source mask width
      remaining (row + 1) (dst_row + max_width) (argb_at + width)
      (cursor_render_row use_argb fg bg argb width dst_row argb_at
        (source row) (mask row) image)

/-- The function `guac_drv_cursor_render`, returning the cursor of the driver
with its image rewritten. -/
def guac_drv_cursor_render (max_width : Nat) (guac_cursor : guac_drv_cursor)
    (cursor : CursorRec) (use_argb : Bool) : guac_drv_cursor :=
  let fg := cursor_color cursor.foreRed cursor.foreGreen cursor.foreBlue
  let bg := cursor_color cursor.backRed cursor.backGreen cursor.backBlue
  let argb := cursor.bits.argb.getD (fun _ => 0)
  { guac_cursor with
      image :=
        cursor_render_rows max_width use_argb fg bg argb cursor.bits.source
          cursor.bits.mask guac_cursor.width guac_cursor.height 0 0 0
          guac_cursor.image }

/-- The function `__guac_drv_realize_cursor` on the cursor of the display. -/
def __guac_drv_realize_cursor (max_width : Nat) (guac_cursor : guac_drv_cursor)
    (cursor : CursorRec) : guac_drv_cursor :=
  let sized : guac_drv_cursor :=
    { guac_cursor with
        width := cursor.bits.width,
        height := cursor.bits.height,
        hotspot_x := cursor.bits.xhot,
        hotspot_y := cursor.bits.yhot }
  if cursor.bits.argb.isSome then
    guac_drv_cursor_render max_width sized cursor true
  else
    guac_drv_cursor_render max_width sized cursor false

/-- The pixel the render loops write for a mask word and a source word shifted
to the pixel, and the ARGB value of the pixel. -/
def cursor_pixel (use_argb : Bool) (fg bg : Nat) (mask src argb_value : Nat) :
    Nat :=
  if mask &&& 1 ≠ 0 then
    (if use_argb then argb_value ||| 0xFF000000
     else if src &&& 1 ≠ 0 then fg else bg)
  else 0

/-! ## Observations on traces -/

/-- Whether an action sends an event to a window (`xcb_send_event`). -/
def Action.is_send_event : Action → Bool
  | Action.send_event _ _ _ _ => true
  | Action.send_client_message _ _ _ _ => true
  | _ => false

/-- Whether an action writes a window property (`xcb_change_property`). -/
def Action.is_change_property : Action → Bool
  | Action.change_property _ _ _ _ _ _ _ => true
  | Action.change_property_checked _ _ _ _ _ _ _ => true
  | _ => false

/-- Whether an action is a conversion request (`xcb_convert_selection`). -/
def Action.is_convert_selection : Action → Bool
  | Action.convert_selection _ _ _ _ _ => true
  | _ => false

/-- Whether an action reads a window property (`xcb_get_property`), the way a
conversion result is consumed. -/
def Action.is_get_property : Action → Bool
  | Action.get_property _ _ _ _ _ _ => true
  | _ => false

/-- Whether an action is a log line. -/
def Action.is_user_log : Action → Bool
  | Action.user_log _ _ => true
  | Action.user_log_format _ _ _ => true
  | _ => false

/-- Whether an action goes to the remote side: stream allocation and release,
the stream instructions, and the flush of the socket. -/
def Action.is_remote : Action → Bool
  | Action.alloc_stream => true
  | Action.send_clipboard _ _ => true
  | Action.send_blob _ _ => true
  | Action.send_end _ => true
  | Action.free_stream _ => true
  | Action.socket_flush => true
  | _ => false

/-- Whether the event is dispatched as an ownership change, that is whether its
type is the selection-notify code of XFixes. -/
def is_ownership_change (a : AgentAtoms) (event : xcb_generic_event_t) : Bool :=
  decide (event.response_type % 128
    = a.xfixes_first_event + XCB_XFIXES_SELECTION_NOTIFY)

/-- The events the loop handles: those received while the running flag is set,
up to the first `NULL` event. -/
def handled_events : List LoopInput → List xcb_generic_event_t
  | [] => []
  | i :: rest =>
    if i.thread_running then
      match i.event with
      | none => []
      | some event => event :: handled_events rest
    else []

/-- The shared clipboard once an inbound stream has been received: the three
handlers of clipboard.c run in the order clipboard, blob, end. -/
def clipboard_after_inbound_stream (agent : guac_drv_agent) (x : XServer)
    (owner_error property_error : Bool) (clipboard : guac_common_clipboard)
    (stream : guac_stream) (mimetype : String) (data : List Nat) :
    guac_common_clipboard :=
  let r1 := guac_drv_clipboard_handler clipboard stream mimetype
  let r2 := guac_drv_clipboard_blob_handler r1.clipboard r1.stream data
  let r3 := guac_drv_clipboard_end_handler agent x owner_error property_error
    r2.clipboard r2.stream
  r3.clipboard

/-! ## Sample values -/

/-- A scratch window. -/
def sample_agent : guac_drv_agent := { dummy := 77 }

/-- Atoms as a server could hand them out, with XFixes events from code 87. -/
def sample_atoms : AgentAtoms :=
  { utf8_string := 300, xsel_data := 301, xa_clipboard := 302,
    xa_targets := 303, xfixes_first_event := 87 }

/-- The bytes of "hello". -/
def sample_hello : List Nat := [104, 101, 108, 108, 111]

/-- The bytes of "copied text". -/
def sample_copied_text : List Nat :=
  [99, 111, 112, 105, 101, 100, 32, 116, 101, 120, 116]

/-- A clipboard of full capacity holding "hello". -/
def sample_clipboard : guac_common_clipboard :=
  { mimetype := "text/plain", buffer := sample_hello, length := 5,
    available := GUAC_DRV_CLIPBOARD_MAX_BYTES }

/-- A clipboard of full capacity holding stale bytes of another type. -/
def sample_stale_clipboard : guac_common_clipboard :=
  { mimetype := "text/html", buffer := [60, 98, 62], length := 3,
    available := GUAC_DRV_CLIPBOARD_MAX_BYTES }

/-- A stream without handlers. -/
def sample_stream : guac_stream := { blob_handler := none, end_handler := none }

/-- A server that resolves every name the driver asks for. -/
def sample_server : XServer :=
  { get_atom := fun name =>
      if name = "UTF8_STRING" then 300 else if name = "XSEL_DATA" then 301
      else if name = "CLIPBOARD" then 302 else if name = "TARGETS" then 303
      else 0,
    init_xfixes := some 87 }

/-- A server on which the name CLIPBOARD does not resolve. -/
def sample_server_no_clipboard : XServer :=
  { get_atom := fun name =>
      if name = "UTF8_STRING" then 300 else if name = "XSEL_DATA" then 301
      else if name = "TARGETS" then 303 else 0,
    init_xfixes := some 87 }

/-- A successful read of an 8-bit property holding "copied text". -/
def sample_reply : xcb_get_property_reply_t :=
  { format := 8, value_len := 11, value := sample_copied_text }

/-- An empty reply, as for a property that does not exist. -/
def sample_empty_reply : xcb_get_property_reply_t :=
  { format := 0, value_len := 0, value := [] }

/-- An event with the given response type and words. -/
def sample_event (response_type w0 w1 w2 w3 w4 w5 : Nat) : xcb_generic_event_t :=
  { response_type := response_type, pad0 := 0, sequence := 9, pad_0 := w0,
    pad_1 := w1, pad_2 := w2, pad_3 := w3, pad_4 := w4, pad_5 := w5, pad_6 := 0 }

/-- A request by window 500 for the targets of CLIPBOARD, into property 400. -/
def sample_targets_request : xcb_generic_event_t :=
  sample_event 30 1000 77 500 302 303 400

/-- A request by window 500 for CLIPBOARD as UTF8_STRING, into property 400. -/
def sample_content_request : xcb_generic_event_t :=
  sample_event 30 1000 77 500 302 300 400

/-- A request by window 500 for CLIPBOARD as atom 31 (STRING). -/
def sample_unsupported_request : xcb_generic_event_t :=
  sample_event 30 1000 77 500 302 31 400

/-- A conversion result deposited on window 77 in property 301. -/
def sample_conversion_result : xcb_generic_event_t :=
  sample_event 31 1000 77 302 300 301 0

/-- An ownership change reported by XFixes (first event code 87). -/
def sample_ownership_change : xcb_generic_event_t :=
  sample_event 87 77 500 302 1000 1000 0

/-- A loop turn with the flag set and the given event. -/
def sample_input (event : xcb_generic_event_t) (error : Bool)
    (reply : xcb_get_property_reply_t) : LoopInput :=
  { thread_running := true, event := some event, property_error := error,
    property_reply := reply, stream := 3, clipboard := sample_clipboard }

/-! ## Startup prerequisites -/

/-- The five probes of startup, in the order the worker makes them. -/
def startup_probes : List Action :=
  [Action.get_atom "UTF8_STRING", Action.get_atom "XSEL_DATA",
   Action.get_atom "CLIPBOARD", Action.get_atom "TARGETS", Action.init_xfixes]

/-- The names of the five prerequisites, in the same order. -/
def prerequisite_names : List String :=
  ["UTF8_STRING", "XSEL_DATA", "CLIPBOARD", "TARGETS", "XFixes"]

/-- Whether each of the five prerequisites is present on the server. -/
def prerequisites_present (x : XServer) : List Bool :=
  [decide (x.get_atom "UTF8_STRING" ≠ XCB_ATOM_NONE),
   decide (x.get_atom "XSEL_DATA" ≠ XCB_ATOM_NONE),
   decide (x.get_atom "CLIPBOARD" ≠ XCB_ATOM_NONE),
   decide (x.get_atom "TARGETS" ≠ XCB_ATOM_NONE),
   x.init_xfixes.isSome]

/-- Whether an action is the registration for ownership changes. -/
def Action.is_registration : Action → Bool
  | Action.xfixes_select_selection_input_checked _ _ _ => true
  | _ => false

/-- Whether an action is the blocking wait for the next event. -/
def Action.is_wait_for_event : Action → Bool
  | Action.wait_for_event => true
  | _ => false

/-- Two ownership changes in a row, no conversion result in between. -/
def sample_two_ownership_changes : List LoopInput :=
  [sample_input sample_ownership_change false sample_empty_reply,
   sample_input sample_ownership_change false sample_empty_reply]

/-- Whether an action writes the running flag of the agent. -/
def Action.is_set_thread_running : Action → Bool
  | Action.set_thread_running _ => true
  | _ => false

/-- Whether an action destroys a window or closes the connection. -/
def Action.is_teardown : Action → Bool
  | Action.destroy_window _ => true
  | Action.disconnect => true
  | _ => false

/-- Whether an action is a request to the X server made while an event is
handled: conversion request, property read or write, event sent. -/
def Action.is_protocol_request : Action → Bool
  | Action.convert_selection _ _ _ _ _ => true
  | Action.get_property _ _ _ _ _ _ => true
  | Action.change_property _ _ _ _ _ _ _ => true
  | Action.send_event _ _ _ _ => true
  | _ => false

/-- The shared clipboard after the blob handler has run once for each of the
given blobs, in order. -/
def clipboard_after_blobs (clipboard : guac_common_clipboard)
    (stream : guac_stream) (blobs : List (List Nat)) : guac_common_clipboard :=
  blobs.foldl
    (fun c data => (guac_drv_clipboard_blob_handler c stream data).clipboard)
    clipboard

/-- The shared clipboard in the course of an inbound stream: after the
clipboard handler and the blob handler for each blob received so far. -/
def clipboard_during_inbound_stream (clipboard : guac_common_clipboard)
    (stream : guac_stream) (mimetype : String) (blobs : List (List Nat)) :
    guac_common_clipboard :=
  clipboard_after_blobs
    (guac_drv_clipboard_handler clipboard stream mimetype).clipboard
    (guac_drv_clipboard_handler clipboard stream mimetype).stream blobs

/-- The bytes of "copied ". -/
def sample_copied : List Nat := [99, 111, 112, 105, 101, 100, 32]

/-- The bytes of "text". -/
def sample_text : List Nat := [116, 101, 120, 116]

/-- The synthetic event of `guac_drv_agent_free` as the worker receives it: a
client message whose window is the scratch window 77. -/
def sample_shutdown_event : xcb_generic_event_t :=
  { response_type := 161, pad0 := 32, sequence := 0, pad_0 := 77, pad_1 := 310,
    pad_2 := 0, pad_3 := 0, pad_4 := 0, pad_5 := 0, pad_6 := 0 }

/-- An ownership change is dequeued while the flag is set; the flag is found
clear at the next loop head, the synthetic event still being queued. -/
def sample_shutdown_inputs : List LoopInput :=
  [sample_input sample_ownership_change false sample_empty_reply,
   { thread_running := false, event := some sample_shutdown_event,
     property_error := false, property_reply := sample_empty_reply,
     stream := 3, clipboard := sample_clipboard }]

/-- A connection whose first screen has root window 1 and which hands out the
identifier 77; the thread starts. -/
def sample_alloc_input : AllocInput :=
  { screen_root := 1, generated_id := 77, pthread_create := 0 }

/-- The same connection when the thread cannot be started (`EAGAIN`). -/
def sample_alloc_input_no_thread : AllocInput :=
  { screen_root := 1, generated_id := 77, pthread_create := 11 }

/-- Whether an action asks for ownership of a selection. -/
def Action.is_set_selection_owner : Action → Bool
  | Action.set_selection_owner_checked _ _ _ => true
  | _ => false

/-- The mask the worker registers with XFixes. -/
def registration_mask : Nat :=
  XCB_XFIXES_SELECTION_EVENT_MASK_SELECTION_CLIENT_CLOSE
    ||| XCB_XFIXES_SELECTION_EVENT_MASK_SELECTION_WINDOW_DESTROY
    ||| XCB_XFIXES_SELECTION_EVENT_MASK_SET_SELECTION_OWNER

/-- Whether an action is the join of the worker thread. -/
def Action.is_pthread_join : Action → Bool
  | Action.pthread_join => true
  | _ => false

/-- A property of format 8 longer than one read: 5000 bytes of value 120. -/
def sample_long_value : List Nat := List.replicate 5000 120

/-- The event with bit 0x80 of its response type flipped. -/
def flip_sent_flag (event : xcb_generic_event_t) : xcb_generic_event_t :=
  { event with response_type := event.response_type ^^^ 128 }

/-- A SelectionNotify sent by another client with `xcb_send_event` (bit 0x80
set), naming window 500 as requestor and property 400. -/
def sample_foreign_notify : xcb_generic_event_t :=
  sample_event 159 1000 500 302 300 400 0

/-- A request by window 500 for the selection PRIMARY (atom 1) as
UTF8_STRING. -/
def sample_primary_content_request : xcb_generic_event_t :=
  sample_event 30 1000 77 500 1 300 400

/-- A request by window 500 for the targets of PRIMARY (atom 1). -/
def sample_primary_targets_request : xcb_generic_event_t :=
  sample_event 30 1000 77 500 1 303 400

/-- Parsers that read "true" as true and an empty value as the default. -/
def sample_parsers : ArgParsers :=
  { boolean := fun argv index default_value =>
      if argv.getD index "" = "true" then true
      else if argv.getD index "" = "false" then false
      else default_value,
    string := fun argv index default_value =>
      if argv.getD index "" = "" then default_value
      else some (argv.getD index "") }

/-- Eight values, one for each parameter of a driver without SFTP. -/
def sample_argv : List String :=
  ["true", "", "/tmp", "", "", "", "", "true"]

/-- Three points: a start and two offsets (or positions). -/
def sample_points : List DDXPointRec :=
  [{ x := 10, y := 10 }, { x := 5, y := 0 }, { x := 0, y := 7 }]

/-- A glyph cursor of 2 by 2 pixels: mask rows 11 and 01, source rows 01 and
11, red foreground and white background. -/
def sample_glyph_cursor : CursorRec :=
  { bits :=
      { source := fun row => if row = 0 then 1 else 3,
        mask := fun row => if row = 0 then 3 else 1,
        argb := none, width := 2, height := 2, xhot := 0, yhot := 0 },
    foreRed := 65535, foreGreen := 0, foreBlue := 0,
    backRed := 65535, backGreen := 65535, backBlue := 65535 }

/-- A cursor of the driver whose image holds 7 everywhere. -/
def sample_guac_cursor : guac_drv_cursor :=
  { image := fun _ => 7, width := 0, height := 0, hotspot_x := 0,
    hotspot_y := 0 }

/-! ## Selection requests -/

/-- When the event type is `XCB_SELECTION_REQUEST` and that code is not the one
XFixes uses for its selection-notify event, the loop takes the
selection-request branch. -/
theorem handle_event_selection_request (agent : guac_drv_agent)
    (a : AgentAtoms) (i : LoopInput) (event : xcb_generic_event_t)
    (htype : event.response_type % 128 = XCB_SELECTION_REQUEST)
    (hxfixes : a.xfixes_first_event + XCB_XFIXES_SELECTION_NOTIFY
      ≠ XCB_SELECTION_REQUEST) :
    handle_event agent a i event
      = handle_selection_request a i.clipboard (as_selection_request event) := by
  have h1 : ¬ (event.response_type % 128
      = a.xfixes_first_event + XCB_XFIXES_SELECTION_NOTIFY) := by
    rw [htype]; exact fun h => hxfixes h.symm
  have h2 : ¬ (event.response_type % 128 = XCB_SELECTION_NOTIFY) := by
    rw [htype]; decide
  show (if event.response_type % 128
      = a.xfixes_first_event + XCB_XFIXES_SELECTION_NOTIFY then _
    else if event.response_type % 128 = XCB_SELECTION_NOTIFY then _
    else if event.response_type % 128 = XCB_SELECTION_REQUEST then _
    else _) = _
  rw [if_neg h1, if_neg h2, if_pos htype]

/-- When the event type is `XCB_SELECTION_NOTIFY` and that code is not the one
XFixes uses for its selection-notify event, the loop takes the
conversion-result branch. -/
theorem handle_event_selection_notify (agent : guac_drv_agent)
    (a : AgentAtoms) (i : LoopInput) (event : xcb_generic_event_t)
    (htype : event.response_type % 128 = XCB_SELECTION_NOTIFY)
    (hxfixes : a.xfixes_first_event + XCB_XFIXES_SELECTION_NOTIFY
      ≠ XCB_SELECTION_NOTIFY) :
    handle_event agent a i event
      = guac_drv_send_property_value_as_clipboard
          (as_selection_notify event).requestor
          (as_selection_notify event).property
          a.utf8_string i.property_error i.property_reply i.stream := by
  have h1 : ¬ (event.response_type % 128
      = a.xfixes_first_event + XCB_XFIXES_SELECTION_NOTIFY) := by
    rw [htype]; exact fun h => hxfixes h.symm
  show (if event.response_type % 128
      = a.xfixes_first_event + XCB_XFIXES_SELECTION_NOTIFY then _
    else if event.response_type % 128 = XCB_SELECTION_NOTIFY then _
    else _) = _
  rw [if_neg h1, if_pos htype]

/-- C1: for every selection-request event (event type `XCB_SELECTION_REQUEST`,
a code XFixes does not use), whatever its selection, target and property, the
actions of the handler end with one `xcb_send_event` to the requestor of the
request, carrying a SelectionNotify whose time, requestor, selection and target
are those of the request, followed by `xcb_flush`; no other event is sent. -/
theorem selection_request_always_notified (agent : guac_drv_agent)
    (a : AgentAtoms) (i : LoopInput) (event : xcb_generic_event_t)
    (htype : event.response_type % 128 = XCB_SELECTION_REQUEST)
    (hxfixes : a.xfixes_first_event + XCB_XFIXES_SELECTION_NOTIFY
      ≠ XCB_SELECTION_REQUEST) :
    ∃ (before : List Action) (property : Nat),
      handle_event agent a i event
        = before ++
          [Action.send_event 0 (as_selection_request event).requestor 0
             { response_type := XCB_SELECTION_NOTIFY,
               time := (as_selection_request event).time,
               requestor := (as_selection_request event).requestor,
               selection := (as_selection_request event).selection,
               target := (as_selection_request event).target,
               property := property },
           Action.flush]
      ∧ before.length = 1
      ∧ (∀ act ∈ before, act.is_send_event = false)
      ∧ (handle_event agent a i event).countP Action.is_send_event = 1 := by
  rw [handle_event_selection_request agent a i event htype hxfixes]
  unfold handle_selection_request
  split
  · exact ⟨_, _, rfl, rfl, by simp [Action.is_send_event], by
      simp [List.countP_cons, Action.is_send_event]⟩
  · split
    · exact ⟨_, _, rfl, rfl, by simp [Action.is_send_event], by
        simp [List.countP_cons, Action.is_send_event]⟩
    · exact ⟨_, _, rfl, rfl, by simp [Action.is_send_event], by
        simp [List.countP_cons, Action.is_send_event]⟩

/-- C2: a selection request whose target is the TARGETS atom is answered by one
replace-mode write, on the requestor window, of the property named in the
request, in format 32, holding the two atoms UTF8_STRING and TARGETS in that
order; the SelectionNotify that follows carries the same property. -/
theorem targets_request_answered (agent : guac_drv_agent)
    (a : AgentAtoms) (i : LoopInput) (event : xcb_generic_event_t)
    (htype : event.response_type % 128 = XCB_SELECTION_REQUEST)
    (hxfixes : a.xfixes_first_event + XCB_XFIXES_SELECTION_NOTIFY
      ≠ XCB_SELECTION_REQUEST)
    (htarget : (as_selection_request event).target = a.xa_targets) :
    handle_event agent a i event
      = [Action.change_property XCB_PROP_MODE_REPLACE
           (as_selection_request event).requestor
           (as_selection_request event).property
           a.xa_targets 32 2
           (PropertyData.atoms [a.utf8_string, a.xa_targets]),
         Action.send_event 0 (as_selection_request event).requestor 0
           { response_type := XCB_SELECTION_NOTIFY,
             time := (as_selection_request event).time,
             requestor := (as_selection_request event).requestor,
             selection := (as_selection_request event).selection,
             target := a.xa_targets,
             property := (as_selection_request event).property },
         Action.flush] := by
  rw [handle_event_selection_request agent a i event htype hxfixes]
  simp [handle_selection_request, htarget]

/-- C3: a selection request for the CLIPBOARD selection with target UTF8_STRING
(which is not TARGETS) is answered by one replace-mode write, on the requestor
window, of the property named in the request, in format 8, holding the first
`length` bytes of the shared clipboard buffer; the SelectionNotify that follows
carries the same property. -/
theorem clipboard_request_answered (agent : guac_drv_agent)
    (a : AgentAtoms) (i : LoopInput) (event : xcb_generic_event_t)
    (htype : event.response_type % 128 = XCB_SELECTION_REQUEST)
    (hxfixes : a.xfixes_first_event + XCB_XFIXES_SELECTION_NOTIFY
      ≠ XCB_SELECTION_REQUEST)
    (hselection : (as_selection_request event).selection = a.xa_clipboard)
    (htarget : (as_selection_request event).target = a.utf8_string)
    (hnot : (as_selection_request event).target ≠ a.xa_targets) :
    handle_event agent a i event
      = [Action.change_property XCB_PROP_MODE_REPLACE
           (as_selection_request event).requestor
           (as_selection_request event).property
           a.utf8_string 8 i.clipboard.length
           (PropertyData.bytes (i.clipboard.buffer.take i.clipboard.length)),
         Action.send_event 0 (as_selection_request event).requestor 0
           { response_type := XCB_SELECTION_NOTIFY,
             time := (as_selection_request event).time,
             requestor := (as_selection_request event).requestor,
             selection := a.xa_clipboard,
             target := a.utf8_string,
             property := (as_selection_request event).property },
         Action.flush] := by
  rw [handle_event_selection_request agent a i event htype hxfixes]
  have hnot2 : ¬ a.utf8_string = a.xa_targets := by rw [← htarget]; exact hnot
  simp [handle_selection_request, hnot2, hselection, htarget]

/-- C4: a selection request that is neither a TARGETS query nor a
CLIPBOARD/UTF8_STRING query causes no property write and one warning, and the
SelectionNotify sent in answer carries the property `XCB_ATOM_NONE`. -/
theorem unsupported_request_answered (agent : guac_drv_agent)
    (a : AgentAtoms) (i : LoopInput) (event : xcb_generic_event_t)
    (htype : event.response_type % 128 = XCB_SELECTION_REQUEST)
    (hxfixes : a.xfixes_first_event + XCB_XFIXES_SELECTION_NOTIFY
      ≠ XCB_SELECTION_REQUEST)
    (hnot_targets : (as_selection_request event).target ≠ a.xa_targets)
    (hnot_content : ¬ ((as_selection_request event).selection = a.xa_clipboard
      ∧ (as_selection_request event).target = a.utf8_string)) :
    handle_event agent a i event
      = [Action.user_log GUAC_LOG_WARNING
           "Window requested unsupported selection/target.",
         Action.send_event 0 (as_selection_request event).requestor 0
           { response_type := XCB_SELECTION_NOTIFY,
             time := (as_selection_request event).time,
             requestor := (as_selection_request event).requestor,
             selection := (as_selection_request event).selection,
             target := (as_selection_request event).target,
             property := XCB_ATOM_NONE },
         Action.flush]
    ∧ (handle_event agent a i event).countP Action.is_change_property = 0
    ∧ (handle_event agent a i event).countP Action.is_user_log = 1 := by
  rw [handle_event_selection_request agent a i event htype hxfixes]
  have h : handle_selection_request a i.clipboard (as_selection_request event)
      = [Action.user_log GUAC_LOG_WARNING
           "Window requested unsupported selection/target.",
         Action.send_event 0 (as_selection_request event).requestor 0
           { response_type := XCB_SELECTION_NOTIFY,
             time := (as_selection_request event).time,
             requestor := (as_selection_request event).requestor,
             selection := (as_selection_request event).selection,
             target := (as_selection_request event).target,
             property := XCB_ATOM_NONE },
         Action.flush] := by
    unfold handle_selection_request
    rw [if_neg hnot_targets, if_neg hnot_content]
    rfl
  rw [h]
  exact ⟨rfl, by simp [List.countP_cons, Action.is_change_property],
    by simp [List.countP_cons, Action.is_user_log]⟩

/-- Witness of C1 on the unsupported request of window 500. -/
theorem selection_request_always_notified_witness :
    sample_unsupported_request.response_type % 128 = XCB_SELECTION_REQUEST
    ∧ sample_atoms.xfixes_first_event + XCB_XFIXES_SELECTION_NOTIFY
        ≠ XCB_SELECTION_REQUEST
    ∧ ∃ (before : List Action) (property : Nat),
      handle_event sample_agent sample_atoms
          (sample_input sample_unsupported_request false sample_empty_reply)
          sample_unsupported_request
        = before ++
          [Action.send_event 0 500 0
             { response_type := XCB_SELECTION_NOTIFY, time := 1000,
               requestor := 500, selection := 302, target := 31,
               property := property },
           Action.flush]
      ∧ before.length = 1
      ∧ (∀ act ∈ before, act.is_send_event = false)
      ∧ (handle_event sample_agent sample_atoms
          (sample_input sample_unsupported_request false sample_empty_reply)
          sample_unsupported_request).countP Action.is_send_event = 1 :=
  ⟨by decide, by decide,
   selection_request_always_notified sample_agent sample_atoms
     (sample_input sample_unsupported_request false sample_empty_reply)
     sample_unsupported_request (by decide) (by decide)⟩

/-- Witness of C2 on the targets request of window 500. -/
theorem targets_request_answered_witness :
    handle_event sample_agent sample_atoms
        (sample_input sample_targets_request false sample_empty_reply)
        sample_targets_request
      = [Action.change_property 0 500 400 303 32 2
           (PropertyData.atoms [300, 303]),
         Action.send_event 0 500 0
           { response_type := 31, time := 1000, requestor := 500,
             selection := 302, target := 303, property := 400 },
         Action.flush] :=
  targets_request_answered sample_agent sample_atoms
    (sample_input sample_targets_request false sample_empty_reply)
    sample_targets_request (by decide) (by decide) (by decide)

/-- Witness of C3 on the content request of window 500, the clipboard holding
"hello". -/
theorem clipboard_request_answered_witness :
    handle_event sample_agent sample_atoms
        (sample_input sample_content_request false sample_empty_reply)
        sample_content_request
      = [Action.change_property 0 500 400 300 8 5
           (PropertyData.bytes [104, 101, 108, 108, 111]),
         Action.send_event 0 500 0
           { response_type := 31, time := 1000, requestor := 500,
             selection := 302, target := 300, property := 400 },
         Action.flush] :=
  clipboard_request_answered sample_agent sample_atoms
    (sample_input sample_content_request false sample_empty_reply)
    sample_content_request (by decide) (by decide) (by decide) (by decide)
    (by decide)

/-- Witness of C4 on the request of window 500 for the target STRING. -/
theorem unsupported_request_answered_witness :
    handle_event sample_agent sample_atoms
        (sample_input sample_unsupported_request false sample_empty_reply)
        sample_unsupported_request
      = [Action.user_log GUAC_LOG_WARNING
           "Window requested unsupported selection/target.",
         Action.send_event 0 500 0
           { response_type := 31, time := 1000, requestor := 500,
             selection := 302, target := 31, property := 0 },
         Action.flush] :=
  (unsupported_request_answered sample_agent sample_atoms
    (sample_input sample_unsupported_request false sample_empty_reply)
    sample_unsupported_request (by decide) (by decide) (by decide)
    (by decide)).1

/-! ## Remote to local -/

/-- The clipboard handler empties the buffer; the blob handler then stores the
bytes received when they fit the capacity. -/
theorem clipboard_after_inbound_stream_eq (agent : guac_drv_agent)
    (x : XServer) (owner_error property_error : Bool)
    (clipboard : guac_common_clipboard) (stream : guac_stream)
    (mimetype : String) (data : List Nat)
    (hfit : data.length ≤ clipboard.available) :
    clipboard_after_inbound_stream agent x owner_error property_error clipboard
        stream mimetype data
      = { mimetype := mimetype, buffer := data, length := data.length,
          available := clipboard.available } := by
  simp [clipboard_after_inbound_stream, guac_drv_clipboard_handler,
    guac_drv_clipboard_blob_handler, guac_drv_clipboard_end_handler,
    guac_common_clipboard_reset, guac_common_clipboard_append,
    List.take_of_length_le hfit]

/-- C5: after the clipboard, blob and end handlers have run in that order for a
content type `t` and bytes `b` that fit the capacity of the buffer, the worker
answers a CLIPBOARD/UTF8_STRING request by writing exactly `b` (format 8,
`b.length` items) to the requested property, and a TARGETS request by writing
the two atoms UTF8_STRING and TARGETS. -/
theorem inbound_round_trip (agent : guac_drv_agent) (x : XServer)
    (owner_error property_error : Bool) (a : AgentAtoms)
    (c0 : guac_common_clipboard) (s0 : guac_stream) (t : String) (b : List Nat)
    (i : LoopInput) (content targets : xcb_generic_event_t)
    (hfit : b.length ≤ c0.available)
    (hclip : i.clipboard
      = clipboard_after_inbound_stream agent x owner_error property_error c0 s0
          t b)
    (hxfixes : a.xfixes_first_event + XCB_XFIXES_SELECTION_NOTIFY
      ≠ XCB_SELECTION_REQUEST)
    (hc_type : content.response_type % 128 = XCB_SELECTION_REQUEST)
    (hc_selection : (as_selection_request content).selection = a.xa_clipboard)
    (hc_target : (as_selection_request content).target = a.utf8_string)
    (hc_not : (as_selection_request content).target ≠ a.xa_targets)
    (ht_type : targets.response_type % 128 = XCB_SELECTION_REQUEST)
    (ht_target : (as_selection_request targets).target = a.xa_targets) :
    handle_event agent a i content
      = [Action.change_property XCB_PROP_MODE_REPLACE
           (as_selection_request content).requestor
           (as_selection_request content).property
           a.utf8_string 8 b.length (PropertyData.bytes b),
         Action.send_event 0 (as_selection_request content).requestor 0
           { response_type := XCB_SELECTION_NOTIFY,
             time := (as_selection_request content).time,
             requestor := (as_selection_request content).requestor,
             selection := a.xa_clipboard,
             target := a.utf8_string,
             property := (as_selection_request content).property },
         Action.flush]
    ∧ handle_event agent a i targets
      = [Action.change_property XCB_PROP_MODE_REPLACE
           (as_selection_request targets).requestor
           (as_selection_request targets).property
           a.xa_targets 32 2
           (PropertyData.atoms [a.utf8_string, a.xa_targets]),
         Action.send_event 0 (as_selection_request targets).requestor 0
           { response_type := XCB_SELECTION_NOTIFY,
             time := (as_selection_request targets).time,
             requestor := (as_selection_request targets).requestor,
             selection := (as_selection_request targets).selection,
             target := a.xa_targets,
             property := (as_selection_request targets).property },
         Action.flush] := by
  have hc := clipboard_after_inbound_stream_eq agent x owner_error
    property_error c0 s0 t b hfit
  have hnot2 : ¬ a.utf8_string = a.xa_targets := by
    rw [← hc_target]; exact hc_not
  constructor
  · rw [handle_event_selection_request agent a i content hc_type hxfixes]
    simp [handle_selection_request, hnot2, hc_selection, hc_target, hclip, hc]
  · rw [handle_event_selection_request agent a i targets ht_type hxfixes]
    simp [handle_selection_request, ht_target]

/-- Witness of C5 with the content type "text/plain" and the bytes "hello",
received over a clipboard that held other data. -/
theorem inbound_round_trip_witness :
    sample_hello.length ≤ sample_stale_clipboard.available
    ∧ handle_event sample_agent sample_atoms
        { thread_running := true, event := some sample_content_request,
          property_error := false, property_reply := sample_empty_reply,
          stream := 3,
          clipboard := clipboard_after_inbound_stream sample_agent sample_server
            false false sample_stale_clipboard sample_stream "text/plain"
            sample_hello }
        sample_content_request
      = [Action.change_property 0 500 400 300 8 5
           (PropertyData.bytes [104, 101, 108, 108, 111]),
         Action.send_event 0 500 0
           { response_type := 31, time := 1000, requestor := 500,
             selection := 302, target := 300, property := 400 },
         Action.flush]
    ∧ handle_event sample_agent sample_atoms
        { thread_running := true, event := some sample_content_request,
          property_error := false, property_reply := sample_empty_reply,
          stream := 3,
          clipboard := clipboard_after_inbound_stream sample_agent sample_server
            false false sample_stale_clipboard sample_stream "text/plain"
            sample_hello }
        sample_targets_request
      = [Action.change_property 0 500 400 303 32 2
           (PropertyData.atoms [300, 303]),
         Action.send_event 0 500 0
           { response_type := 31, time := 1000, requestor := 500,
             selection := 302, target := 303, property := 400 },
         Action.flush] :=
  ⟨by decide,
   inbound_round_trip sample_agent sample_server false false sample_atoms
     sample_stale_clipboard sample_stream "text/plain" sample_hello
     { thread_running := true, event := some sample_content_request,
       property_error := false, property_reply := sample_empty_reply,
       stream := 3,
       clipboard := clipboard_after_inbound_stream sample_agent sample_server
         false false sample_stale_clipboard sample_stream "text/plain"
         sample_hello }
     sample_content_request sample_targets_request
     (by decide) rfl (by decide) (by decide) (by decide) (by decide)
     (by decide) (by decide) (by decide)⟩

/-! ## Local to remote -/

/-- C6: for a conversion result (event type `XCB_SELECTION_NOTIFY`, a code
XFixes does not use) whose property read succeeds with an 8-bit value `v`, the
worker reads the property once and sends one clipboard stream: open with
mimetype "text/plain", one blob holding `v`, end on the same stream; then it
frees the stream and flushes the socket, and does nothing else. -/
theorem conversion_result_forwarded (agent : guac_drv_agent) (a : AgentAtoms)
    (i : LoopInput) (event : xcb_generic_event_t) (v : List Nat)
    (htype : event.response_type % 128 = XCB_SELECTION_NOTIFY)
    (hxfixes : a.xfixes_first_event + XCB_XFIXES_SELECTION_NOTIFY
      ≠ XCB_SELECTION_NOTIFY)
    (hok : i.property_error = false)
    (hformat : i.property_reply.format = 8)
    (hvalue : i.property_reply.value = v)
    (hlen : i.property_reply.value_len = v.length) :
    handle_event agent a i event
      = [Action.get_property 1 (as_selection_notify event).requestor
           (as_selection_notify event).property a.utf8_string 0 1024,
         Action.get_property_reply,
         Action.alloc_stream,
         Action.send_clipboard i.stream "text/plain",
         Action.send_blob i.stream v,
         Action.send_end i.stream,
         Action.free_stream i.stream,
         Action.socket_flush]
    ∧ (handle_event agent a i event).filter Action.is_remote
      = [Action.alloc_stream,
         Action.send_clipboard i.stream "text/plain",
         Action.send_blob i.stream v,
         Action.send_end i.stream,
         Action.free_stream i.stream,
         Action.socket_flush] := by
  rw [handle_event_selection_notify agent a i event htype hxfixes]
  have h : guac_drv_send_property_value_as_clipboard
        (as_selection_notify event).requestor
        (as_selection_notify event).property a.utf8_string i.property_error
        i.property_reply i.stream
      = [Action.get_property 1 (as_selection_notify event).requestor
           (as_selection_notify event).property a.utf8_string 0 1024,
         Action.get_property_reply,
         Action.alloc_stream,
         Action.send_clipboard i.stream "text/plain",
         Action.send_blob i.stream v,
         Action.send_end i.stream,
         Action.free_stream i.stream,
         Action.socket_flush] := by
    simp [guac_drv_send_property_value_as_clipboard, hok, hformat, hvalue,
      hlen, xcb_get_property_value_length]
  rw [h]
  exact ⟨rfl, rfl⟩

/-- Witness of C6 with the value "copied text". -/
theorem conversion_result_forwarded_witness :
    handle_event sample_agent sample_atoms
        (sample_input sample_conversion_result false sample_reply)
        sample_conversion_result
      = [Action.get_property 1 77 301 300 0 1024,
         Action.get_property_reply,
         Action.alloc_stream,
         Action.send_clipboard 3 "text/plain",
         Action.send_blob 3 [99, 111, 112, 105, 101, 100, 32, 116, 101, 120, 116],
         Action.send_end 3,
         Action.free_stream 3,
         Action.socket_flush] :=
  (conversion_result_forwarded sample_agent sample_atoms
    (sample_input sample_conversion_result false sample_reply)
    sample_conversion_result sample_copied_text (by decide) (by decide) rfl rfl
    rfl rfl).1

/-- C7: for every ownership change (event type equal to the selection-notify
code of XFixes), whatever the words of the event, the worker issues one
conversion request with requestor the scratch window, selection CLIPBOARD,
target UTF8_STRING and property XSEL_DATA, then flushes the connection; nothing
goes to the remote side. -/
theorem ownership_change_requests_conversion (agent : guac_drv_agent)
    (a : AgentAtoms) (i : LoopInput) (event : xcb_generic_event_t)
    (htype : event.response_type % 128
      = a.xfixes_first_event + XCB_XFIXES_SELECTION_NOTIFY) :
    handle_event agent a i event
      = [Action.convert_selection agent.dummy a.xa_clipboard a.utf8_string
           a.xsel_data XCB_CURRENT_TIME,
         Action.flush]
    ∧ (handle_event agent a i event).countP Action.is_convert_selection = 1
    ∧ (handle_event agent a i event).countP Action.is_remote = 0 := by
  have h : handle_event agent a i event
      = [Action.convert_selection agent.dummy a.xa_clipboard a.utf8_string
           a.xsel_data XCB_CURRENT_TIME,
         Action.flush] := by
    show (if event.response_type % 128
        = a.xfixes_first_event + XCB_XFIXES_SELECTION_NOTIFY then _
      else _) = _
    rw [if_pos htype]
  rw [h]
  exact ⟨rfl, rfl, rfl⟩

/-- Witness of C7 on an ownership change whose new owner is the scratch
window itself. -/
theorem ownership_change_requests_conversion_witness :
    handle_event sample_agent sample_atoms
        (sample_input (sample_event 87 77 77 302 1000 1000 0) false
          sample_empty_reply)
        (sample_event 87 77 77 302 1000 1000 0)
      = [Action.convert_selection 77 302 300 301 0, Action.flush] :=
  (ownership_change_requests_conversion sample_agent sample_atoms
    (sample_input (sample_event 87 77 77 302 1000 1000 0) false
      sample_empty_reply)
    (sample_event 87 77 77 302 1000 1000 0) (by decide)).1

/-- C8: for a conversion result whose property read reports an error or yields
a format other than 8, the worker makes the one property read and nothing
else: no stream is allocated, no instruction goes to the remote side, the read
is not repeated; the loop then carries on with the next turn. -/
theorem failed_conversion_result_dropped (agent : guac_drv_agent)
    (a : AgentAtoms) (i : LoopInput) (rest : List LoopInput)
    (event : xcb_generic_event_t)
    (hrun : i.thread_running = true)
    (hevent : i.event = some event)
    (htype : event.response_type % 128 = XCB_SELECTION_NOTIFY)
    (hxfixes : a.xfixes_first_event + XCB_XFIXES_SELECTION_NOTIFY
      ≠ XCB_SELECTION_NOTIFY)
    (hbad : i.property_error = true ∨ i.property_reply.format ≠ 8) :
    handle_event agent a i event
      = [Action.get_property 1 (as_selection_notify event).requestor
           (as_selection_notify event).property a.utf8_string 0 1024,
         Action.get_property_reply]
    ∧ (handle_event agent a i event).countP Action.is_remote = 0
    ∧ (handle_event agent a i event).countP Action.is_get_property = 1
    ∧ agent_event_loop agent a (i :: rest)
      = (Action.wait_for_event ::
          Action.get_property 1 (as_selection_notify event).requestor
            (as_selection_notify event).property a.utf8_string 0 1024 ::
          Action.get_property_reply :: (agent_event_loop agent a rest).1,
         (agent_event_loop agent a rest).2) := by
  have h : handle_event agent a i event
      = [Action.get_property 1 (as_selection_notify event).requestor
           (as_selection_notify event).property a.utf8_string 0 1024,
         Action.get_property_reply] := by
    rw [handle_event_selection_notify agent a i event htype hxfixes]
    unfold guac_drv_send_property_value_as_clipboard
    rw [if_pos hbad]
    rfl
  refine ⟨h, ?_, ?_, ?_⟩
  · rw [h]; rfl
  · rw [h]; rfl
  · simp [agent_event_loop, hrun, hevent, h]

/-- Witness of C8: a failed read, followed by an ownership change that is
handled as usual. -/
theorem failed_conversion_result_dropped_witness :
    agent_event_loop sample_agent sample_atoms
        [sample_input sample_conversion_result true sample_empty_reply,
         sample_input sample_ownership_change false sample_empty_reply]
      = ([Action.wait_for_event,
          Action.get_property 1 77 301 300 0 1024,
          Action.get_property_reply,
          Action.wait_for_event,
          Action.convert_selection 77 302 300 301 0,
          Action.flush],
         Outcome.running) :=
  (failed_conversion_result_dropped sample_agent sample_atoms
    (sample_input sample_conversion_result true sample_empty_reply)
    [sample_input sample_ownership_change false sample_empty_reply]
    sample_conversion_result rfl rfl (by decide) (by decide)
    (Or.inl rfl)).2.2.2

/-! ## Conversion requests over a run of the loop -/

/-- One turn of the loop issues a conversion request exactly when the event is
an ownership change. -/
theorem handle_event_convert_count (agent : guac_drv_agent) (a : AgentAtoms)
    (i : LoopInput) (event : xcb_generic_event_t) :
    (handle_event agent a i event).countP Action.is_convert_selection
      = if is_ownership_change a event then 1 else 0 := by
  unfold handle_event is_ownership_change
  by_cases h1 : event.response_type % 128
      = a.xfixes_first_event + XCB_XFIXES_SELECTION_NOTIFY
  · simp [h1, Action.is_convert_selection]
  · simp only [h1, if_false, decide_False, Bool.false_eq_true]
    split
    · unfold guac_drv_send_property_value_as_clipboard
      split <;> simp [Action.is_convert_selection]
    · split
      · unfold handle_selection_request
        split
        · simp [Action.is_convert_selection]
        · split <;> simp [Action.is_convert_selection]
      · rfl

/-- Counterexample to C9: two ownership changes handled in a row, with no
conversion result handled in between, yield two conversion requests and no
property read, so two requests are open at once. -/
theorem second_ownership_change_opens_second_request :
    (agent_event_loop sample_agent sample_atoms
        sample_two_ownership_changes).1.countP Action.is_convert_selection = 2
    ∧ (agent_event_loop sample_agent sample_atoms
        sample_two_ownership_changes).1.countP Action.is_get_property = 0
    ∧ ¬ ((agent_event_loop sample_agent sample_atoms
          sample_two_ownership_changes).1.countP Action.is_convert_selection
        - (agent_event_loop sample_agent sample_atoms
          sample_two_ownership_changes).1.countP Action.is_get_property
        ≤ 1) := by
  decide

/-- C9, amended: over every run of the loop the number of conversion requests
issued equals the number of ownership changes handled; each ownership change
handled opens one request, whether or not an earlier conversion result has
been consumed. -/
theorem conversion_requests_eq_ownership_changes (agent : guac_drv_agent)
    (a : AgentAtoms) (inputs : List LoopInput) :
    (agent_event_loop agent a inputs).1.countP Action.is_convert_selection
      = (handled_events inputs).countP (is_ownership_change a) := by
  induction inputs with
  | nil => rfl
  | cons i rest ih =>
    unfold agent_event_loop handled_events
    cases hrun : i.thread_running with
    | false => simp [Action.is_convert_selection]
    | true =>
      cases hevent : i.event with
      | none => simp [Action.is_convert_selection]
      | some event =>
        simp only [if_true, List.countP_cons, List.countP_append,
          Action.is_convert_selection, ih,
          handle_event_convert_count agent a i event]
        simp [Nat.add_comm]

/-! ## Startup -/

/-- C10: when the first of the five prerequisites (the atoms UTF8_STRING,
XSEL_DATA, CLIPBOARD, TARGETS, then the XFixes extension) that is missing is
the k-th, the worker makes the probes up to that one in order, logs one
warning whose text contains the name of that prerequisite, and returns: no
later probe, no registration, no wait for an event. -/
theorem startup_fail_soft (agent : guac_drv_agent) (x : XServer)
    (inputs : List LoopInput) (k : Nat)
    (hprev : ∀ j, j < k → (prerequisites_present x)[j]? = some true)
    (hmiss : (prerequisites_present x)[k]? = some false) :
    ∃ head tail : String,
      guac_drv_agent_thread agent x inputs
        = (startup_probes.take (k + 1) ++
            [Action.user_log GUAC_LOG_WARNING
              (head ++ prerequisite_names.getD k "" ++ tail)],
           Outcome.returned)
      ∧ (guac_drv_agent_thread agent x inputs).1.countP Action.is_user_log = 1
      ∧ (guac_drv_agent_thread agent x inputs).1.countP
          Action.is_registration = 0
      ∧ (guac_drv_agent_thread agent x inputs).1.countP
          Action.is_wait_for_event = 0 := by
  have hk : k < 5 := by
    by_contra hge
    have : (prerequisites_present x)[k]? = none := by
      apply List.getElem?_eq_none
      simp [prerequisites_present]; omega
    rw [this] at hmiss; cases hmiss
  have h0 := hprev 0
  have h1 := hprev 1
  have h2 := hprev 2
  have h3 := hprev 3
  simp only [prerequisites_present, List.getElem?_cons_zero,
    List.getElem?_cons_succ, Option.some.injEq, decide_eq_true_eq] at h0 h1 h2 h3
  interval_cases k
  · simp only [prerequisites_present, List.getElem?_cons_zero,
      Option.some.injEq, decide_eq_false_iff_not, not_not] at hmiss
    refine ⟨"X server does not support the ",
      " atom. Clipboard will not work.", ?_⟩
    simp only [guac_drv_agent_thread, hmiss, if_true]
    exact ⟨rfl, rfl, rfl, rfl⟩
  · simp only [prerequisites_present, List.getElem?_cons_zero,
      List.getElem?_cons_succ, Option.some.injEq, decide_eq_false_iff_not,
      not_not] at hmiss
    have a0 := h0 (by decide)
    refine ⟨"X server does not support the ",
      " atom. Clipboard will not work.", ?_⟩
    simp only [guac_drv_agent_thread, hmiss, a0, if_true, if_false]
    exact ⟨rfl, rfl, rfl, rfl⟩
  · simp only [prerequisites_present, List.getElem?_cons_zero,
      List.getElem?_cons_succ, Option.some.injEq, decide_eq_false_iff_not,
      not_not] at hmiss
    have a0 := h0 (by decide)
    have a1 := h1 (by decide)
    refine ⟨"X server does not support the ",
      " atom. Clipboard will not work.", ?_⟩
    simp only [guac_drv_agent_thread, hmiss, a0, a1, if_true, if_false]
    exact ⟨rfl, rfl, rfl, rfl⟩
  · simp only [prerequisites_present, List.getElem?_cons_zero,
      List.getElem?_cons_succ, Option.some.injEq, decide_eq_false_iff_not,
      not_not] at hmiss
    have a0 := h0 (by decide)
    have a1 := h1 (by decide)
    have a2 := h2 (by decide)
    refine ⟨"X server does not support the ",
      " atom. Clipboard will not work.", ?_⟩
    simp only [guac_drv_agent_thread, hmiss, a0, a1, a2, if_true, if_false]
    exact ⟨rfl, rfl, rfl, rfl⟩
  · have hx : x.init_xfixes = none := by
      cases h : x.init_xfixes with
      | none => rfl
      | some v => simp [prerequisites_present, h] at hmiss
    have a0 := h0 (by decide)
    have a1 := h1 (by decide)
    have a2 := h2 (by decide)
    have a3 := h3 (by decide)
    refine ⟨"X server does not have the ",
      " extension. Clipboard will not work.", ?_⟩
    simp only [guac_drv_agent_thread, hx, a0, a1, a2, a3, if_false]
    exact ⟨rfl, rfl, rfl, rfl⟩

/-- Witness of C10 on a server where UTF8_STRING and XSEL_DATA resolve and
CLIPBOARD does not: three probes, one warning naming CLIPBOARD, return. -/
theorem startup_fail_soft_witness :
    (prerequisites_present sample_server_no_clipboard)[2]? = some false
    ∧ guac_drv_agent_thread sample_agent sample_server_no_clipboard
        sample_two_ownership_changes
      = ([Action.get_atom "UTF8_STRING", Action.get_atom "XSEL_DATA",
          Action.get_atom "CLIPBOARD",
          Action.user_log GUAC_LOG_WARNING
            "X server does not support the CLIPBOARD atom. Clipboard will not work."],
         Outcome.returned)
    ∧ ∃ head tail : String,
      guac_drv_agent_thread sample_agent sample_server_no_clipboard
          sample_two_ownership_changes
        = (startup_probes.take (2 + 1) ++
            [Action.user_log GUAC_LOG_WARNING
              (head ++ prerequisite_names.getD 2 "" ++ tail)],
           Outcome.returned)
      ∧ (guac_drv_agent_thread sample_agent sample_server_no_clipboard
          sample_two_ownership_changes).1.countP Action.is_user_log = 1
      ∧ (guac_drv_agent_thread sample_agent sample_server_no_clipboard
          sample_two_ownership_changes).1.countP Action.is_registration = 0
      ∧ (guac_drv_agent_thread sample_agent sample_server_no_clipboard
          sample_two_ownership_changes).1.countP Action.is_wait_for_event = 0 :=
  ⟨by decide, by decide,
   startup_fail_soft sample_agent sample_server_no_clipboard
     sample_two_ownership_changes 2
     (fun j hj => by
       have hj2 : j = 0 ∨ j = 1 := by omega
       rcases hj2 with rfl | rfl <;> decide)
     (by decide)⟩

/-! ## Successful startup -/

/-- One turn of the loop never registers with XFixes. -/
theorem handle_event_no_registration (agent : guac_drv_agent) (a : AgentAtoms)
    (i : LoopInput) (event : xcb_generic_event_t) :
    (handle_event agent a i event).countP Action.is_registration = 0 := by
  unfold handle_event
  by_cases h1 : event.response_type % 128
      = a.xfixes_first_event + XCB_XFIXES_SELECTION_NOTIFY
  · simp [h1, Action.is_registration]
  · simp only [h1, if_false]
    split
    · unfold guac_drv_send_property_value_as_clipboard
      split <;> simp [Action.is_registration]
    · split
      · unfold handle_selection_request
        split
        · simp [Action.is_registration]
        · split <;> simp [Action.is_registration]
      · rfl

/-- The event loop never registers with XFixes. -/
theorem agent_event_loop_no_registration (agent : guac_drv_agent)
    (a : AgentAtoms) (inputs : List LoopInput) :
    (agent_event_loop agent a inputs).1.countP Action.is_registration = 0 := by
  induction inputs with
  | nil => rfl
  | cons i rest ih =>
    unfold agent_event_loop
    cases hrun : i.thread_running with
    | false => simp [Action.is_registration]
    | true =>
      cases hevent : i.event with
      | none => simp [Action.is_registration]
      | some event =>
        simp only [if_true, List.countP_cons, List.countP_append,
          Action.is_registration, ih,
          handle_event_no_registration agent a i event]
        simp

/-- C11: when the four atoms resolve and XFixes is present, the worker makes
the five probes, logs nothing, registers once with XFixes on its scratch window
for the CLIPBOARD selection with a mask holding the bits set-selection-owner,
selection-window-destroy and selection-client-close, and goes on with the event
loop; the registration is the only one of the run and precedes every wait. -/
theorem startup_registers (agent : guac_drv_agent) (x : XServer)
    (inputs : List LoopInput) (first_event : Nat)
    (h_utf8 : x.get_atom "UTF8_STRING" ≠ XCB_ATOM_NONE)
    (h_xsel : x.get_atom "XSEL_DATA" ≠ XCB_ATOM_NONE)
    (h_clipboard : x.get_atom "CLIPBOARD" ≠ XCB_ATOM_NONE)
    (h_targets : x.get_atom "TARGETS" ≠ XCB_ATOM_NONE)
    (h_xfixes : x.init_xfixes = some first_event) :
    guac_drv_agent_thread agent x inputs
      = (startup_probes ++
          [Action.xfixes_select_selection_input_checked agent.dummy
            (x.get_atom "CLIPBOARD") registration_mask] ++
          (agent_event_loop agent
            { utf8_string := x.get_atom "UTF8_STRING",
              xsel_data := x.get_atom "XSEL_DATA",
              xa_clipboard := x.get_atom "CLIPBOARD",
              xa_targets := x.get_atom "TARGETS",
              xfixes_first_event := first_event } inputs).1,
         (agent_event_loop agent
            { utf8_string := x.get_atom "UTF8_STRING",
              xsel_data := x.get_atom "XSEL_DATA",
              xa_clipboard := x.get_atom "CLIPBOARD",
              xa_targets := x.get_atom "TARGETS",
              xfixes_first_event := first_event } inputs).2)
    ∧ (guac_drv_agent_thread agent x inputs).1.countP
        Action.is_registration = 1
    ∧ startup_probes.countP Action.is_user_log = 0
    ∧ startup_probes.countP Action.is_wait_for_event = 0
    ∧ registration_mask
        &&& XCB_XFIXES_SELECTION_EVENT_MASK_SET_SELECTION_OWNER
        = XCB_XFIXES_SELECTION_EVENT_MASK_SET_SELECTION_OWNER
    ∧ registration_mask
        &&& XCB_XFIXES_SELECTION_EVENT_MASK_SELECTION_WINDOW_DESTROY
        = XCB_XFIXES_SELECTION_EVENT_MASK_SELECTION_WINDOW_DESTROY
    ∧ registration_mask
        &&& XCB_XFIXES_SELECTION_EVENT_MASK_SELECTION_CLIENT_CLOSE
        = XCB_XFIXES_SELECTION_EVENT_MASK_SELECTION_CLIENT_CLOSE := by
  have h : guac_drv_agent_thread agent x inputs
      = (startup_probes ++
          [Action.xfixes_select_selection_input_checked agent.dummy
            (x.get_atom "CLIPBOARD") registration_mask] ++
          (agent_event_loop agent
            { utf8_string := x.get_atom "UTF8_STRING",
              xsel_data := x.get_atom "XSEL_DATA",
              xa_clipboard := x.get_atom "CLIPBOARD",
              xa_targets := x.get_atom "TARGETS",
              xfixes_first_event := first_event } inputs).1,
         (agent_event_loop agent
            { utf8_string := x.get_atom "UTF8_STRING",
              xsel_data := x.get_atom "XSEL_DATA",
              xa_clipboard := x.get_atom "CLIPBOARD",
              xa_targets := x.get_atom "TARGETS",
              xfixes_first_event := first_event } inputs).2) := by
    simp only [guac_drv_agent_thread, h_utf8, h_xsel, h_clipboard, h_targets,
      h_xfixes, if_false]
    rfl
  refine ⟨h, ?_, by decide, by decide, by decide, by decide, by decide⟩
  rw [h]
  simp only [List.countP_append, agent_event_loop_no_registration]
  rfl

/-- Witness of C11 on a server that resolves everything, the first event being
an ownership change. -/
theorem startup_registers_witness :
    guac_drv_agent_thread sample_agent sample_server
        [sample_input sample_ownership_change false sample_empty_reply]
      = ([Action.get_atom "UTF8_STRING", Action.get_atom "XSEL_DATA",
          Action.get_atom "CLIPBOARD", Action.get_atom "TARGETS",
          Action.init_xfixes,
          Action.xfixes_select_selection_input_checked 77 302 7,
          Action.wait_for_event,
          Action.convert_selection 77 302 300 301 0,
          Action.flush],
         Outcome.running) :=
  (startup_registers sample_agent sample_server
    [sample_input sample_ownership_change false sample_empty_reply] 87
    (by decide) (by decide) (by decide) (by decide) rfl).1

/-! ## Inbound stream handlers -/

/-- C12: whatever the clipboard held and whatever the content type `t`, after
the clipboard handler the buffer is empty (length 0, no byte of the prior
content in use), the content type is `t`, the stream carries the blob and end
handlers of the driver, nothing was sent, and the value returned is 0. -/
theorem clipboard_handler_resets (clipboard : guac_common_clipboard)
    (stream : guac_stream) (t : String) :
    (guac_drv_clipboard_handler clipboard stream t).clipboard.length = 0
    ∧ (guac_drv_clipboard_handler clipboard stream t).clipboard.buffer = []
    ∧ (guac_drv_clipboard_handler clipboard stream t).clipboard.mimetype = t
    ∧ (guac_drv_clipboard_handler clipboard stream t).clipboard.available
        = clipboard.available
    ∧ (guac_drv_clipboard_handler clipboard stream t).stream.blob_handler
        = some StreamHandler.guac_drv_clipboard_blob_handler
    ∧ (guac_drv_clipboard_handler clipboard stream t).stream.end_handler
        = some StreamHandler.guac_drv_clipboard_end_handler
    ∧ (guac_drv_clipboard_handler clipboard stream t).actions = []
    ∧ (guac_drv_clipboard_handler clipboard stream t).ret = 0 :=
  ⟨rfl, rfl, rfl, rfl, rfl, rfl, rfl, rfl⟩

/-- C13: when UTF8_STRING and CLIPBOARD resolve, the end handler asks once,
checked, for ownership of CLIPBOARD by the scratch window.  If the check
reports an error it logs one error and writes no property.  Otherwise it makes
one checked replace-mode write on the scratch window of the property CLIPBOARD,
type UTF8_STRING, format 8, holding the bytes of the buffer in use, and logs
one error if that check fails.  Nothing is repeated, the clipboard is left as
it was, and the value returned is 0. -/
theorem end_handler_asserts_ownership (agent : guac_drv_agent) (x : XServer)
    (owner_error property_error : Bool) (clipboard : guac_common_clipboard)
    (stream : guac_stream)
    (h_utf8 : x.get_atom "UTF8_STRING" ≠ XCB_ATOM_NONE)
    (h_clipboard : x.get_atom "CLIPBOARD" ≠ XCB_ATOM_NONE) :
    (guac_drv_clipboard_end_handler agent x owner_error property_error
        clipboard stream).actions
      = [Action.get_atom "UTF8_STRING", Action.get_atom "CLIPBOARD",
         Action.set_selection_owner_checked agent.dummy
           (x.get_atom "CLIPBOARD") XCB_CURRENT_TIME,
         Action.request_check] ++
        (if owner_error then
          [Action.user_log GUAC_LOG_ERROR "Failed to set clipbaord owner."]
         else
          [Action.change_property_checked XCB_PROP_MODE_REPLACE agent.dummy
             (x.get_atom "CLIPBOARD") (x.get_atom "UTF8_STRING") 8
             clipboard.length
             (PropertyData.bytes (clipboard.buffer.take clipboard.length)),
           Action.request_check] ++
          (if property_error then
            [Action.user_log GUAC_LOG_ERROR
              "Failed to change clipboard property."]
           else []))
    ∧ (guac_drv_clipboard_end_handler agent x owner_error property_error
        clipboard stream).actions.countP Action.is_set_selection_owner = 1
    ∧ (guac_drv_clipboard_end_handler agent x owner_error property_error
        clipboard stream).actions.countP Action.is_change_property
        = (if owner_error then 0 else 1)
    ∧ (guac_drv_clipboard_end_handler agent x owner_error property_error
        clipboard stream).actions.countP Action.is_user_log
        = (if owner_error || property_error then 1 else 0)
    ∧ (guac_drv_clipboard_end_handler agent x owner_error property_error
        clipboard stream).actions.countP Action.is_remote = 0
    ∧ (guac_drv_clipboard_end_handler agent x owner_error property_error
        clipboard stream).clipboard = clipboard
    ∧ (guac_drv_clipboard_end_handler agent x owner_error property_error
        clipboard stream).ret = 0 := by
  have h : (guac_drv_clipboard_end_handler agent x owner_error property_error
        clipboard stream).actions
      = [Action.get_atom "UTF8_STRING", Action.get_atom "CLIPBOARD",
         Action.set_selection_owner_checked agent.dummy
           (x.get_atom "CLIPBOARD") XCB_CURRENT_TIME,
         Action.request_check] ++
        (if owner_error then
          [Action.user_log GUAC_LOG_ERROR "Failed to set clipbaord owner."]
         else
          [Action.change_property_checked XCB_PROP_MODE_REPLACE agent.dummy
             (x.get_atom "CLIPBOARD") (x.get_atom "UTF8_STRING") 8
             clipboard.length
             (PropertyData.bytes (clipboard.buffer.take clipboard.length)),
           Action.request_check] ++
          (if property_error then
            [Action.user_log GUAC_LOG_ERROR
              "Failed to change clipboard property."]
           else [])) := by
    simp only [guac_drv_clipboard_end_handler, h_utf8, h_clipboard, if_false]
  refine ⟨h, ?_, ?_, ?_, ?_, rfl, rfl⟩
  · rw [h]; cases owner_error <;> cases property_error <;> rfl
  · rw [h]; cases owner_error <;> cases property_error <;> rfl
  · rw [h]; cases owner_error <;> cases property_error <;> rfl
  · rw [h]; cases owner_error <;> cases property_error <;> rfl

/-- Witness of C13: both checks pass, the clipboard holding "hello". -/
theorem end_handler_asserts_ownership_witness :
    (guac_drv_clipboard_end_handler sample_agent sample_server false false
        sample_clipboard sample_stream).actions
      = [Action.get_atom "UTF8_STRING", Action.get_atom "CLIPBOARD",
         Action.set_selection_owner_checked 77 302 0,
         Action.request_check,
         Action.change_property_checked 0 77 302 300 8 5
           (PropertyData.bytes [104, 101, 108, 108, 111]),
         Action.request_check] :=
  (end_handler_asserts_ownership sample_agent sample_server false false
    sample_clipboard sample_stream (by decide) (by decide)).1

/-! ## Shutdown -/

/-- Counterexample to C14: freeing an agent whose running flag is already
clear is not a no-op; the scratch window is destroyed, the connection is
closed and the agent is released. -/
theorem agent_free_stopped_not_noop :
    guac_drv_agent_free sample_agent false sample_server
      = [Action.destroy_window 77, Action.disconnect, Action.free_agent]
    ∧ guac_drv_agent_free sample_agent false sample_server ≠ []
    ∧ (guac_drv_agent_free sample_agent false sample_server).countP
        Action.is_teardown = 2 := by
  decide

/-- C14, amended: freeing an agent whose running flag is clear sends no event
and joins no thread, so it does not wait for the worker; it still destroys the
scratch window, closes the connection and releases the agent. -/
theorem agent_free_stopped (agent : guac_drv_agent) (x : XServer) :
    guac_drv_agent_free agent false x
      = [Action.destroy_window agent.dummy, Action.disconnect,
         Action.free_agent]
    ∧ (guac_drv_agent_free agent false x).countP Action.is_send_event = 0
    ∧ (guac_drv_agent_free agent false x).countP Action.is_pthread_join = 0 :=
  ⟨rfl, rfl, rfl⟩

/-- C15: freeing an agent whose running flag is set clears the flag, sends one
client message to the scratch window of the agent, flushes, joins the worker
thread, destroys the scratch window, closes the connection and releases the
agent, in that order; nothing is destroyed or closed before the join. -/
theorem agent_free_running (agent : guac_drv_agent) (x : XServer) :
    guac_drv_agent_free agent true x
      = [Action.set_thread_running false,
         Action.get_atom "GUAC_DRV_AGENT_FREE",
         Action.send_client_message 0 agent.dummy XCB_EVENT_MASK_NO_EVENT
           { response_type := XCB_CLIENT_MESSAGE, format := 32, sequence := 0,
             window := agent.dummy, type := x.get_atom "GUAC_DRV_AGENT_FREE",
             data32 := [0, 0, 0, 0, 0] },
         Action.flush,
         Action.pthread_join,
         Action.destroy_window agent.dummy,
         Action.disconnect,
         Action.free_agent]
    ∧ (guac_drv_agent_free agent true x).countP Action.is_send_event = 1
    ∧ (guac_drv_agent_free agent true x).countP Action.is_pthread_join = 1
    ∧ ((guac_drv_agent_free agent true x).takeWhile
        (fun act => !act.is_pthread_join)).countP Action.is_teardown = 0
    ∧ ((guac_drv_agent_free agent true x).dropWhile
        (fun act => !act.is_pthread_join))
      = [Action.pthread_join, Action.destroy_window agent.dummy,
         Action.disconnect, Action.free_agent] :=
  ⟨rfl, rfl, rfl, rfl, rfl⟩

/-- The synthetic event of shutdown, or any client message, matches none of the
branches of the dispatch when XFixes does not use its code. -/
theorem handle_event_client_message (agent : guac_drv_agent) (a : AgentAtoms)
    (i : LoopInput) (event : xcb_generic_event_t)
    (htype : event.response_type % 128 = XCB_CLIENT_MESSAGE)
    (hxfixes : a.xfixes_first_event + XCB_XFIXES_SELECTION_NOTIFY
      ≠ XCB_CLIENT_MESSAGE) :
    handle_event agent a i event = [] := by
  have h1 : ¬ (event.response_type % 128
      = a.xfixes_first_event + XCB_XFIXES_SELECTION_NOTIFY) := by
    rw [htype]; exact fun h => hxfixes h.symm
  have h2 : ¬ (event.response_type % 128 = XCB_SELECTION_NOTIFY) := by
    rw [htype]; decide
  have h3 : ¬ (event.response_type % 128 = XCB_SELECTION_REQUEST) := by
    rw [htype]; decide
  show (if event.response_type % 128
      = a.xfixes_first_event + XCB_XFIXES_SELECTION_NOTIFY then _
    else if event.response_type % 128 = XCB_SELECTION_NOTIFY then _
    else if event.response_type % 128 = XCB_SELECTION_REQUEST then _
    else _) = _
  rw [if_neg h1, if_neg h2, if_neg h3]

/-- Counterexample to C16: an ownership change is dequeued and handled with a
conversion request, the next loop head finds the flag clear, and the worker
returns although the synthetic shutdown event, still queued, was never
dequeued. -/
theorem worker_exits_without_shutdown_event :
    agent_event_loop sample_agent sample_atoms sample_shutdown_inputs
      = ([Action.wait_for_event,
          Action.convert_selection 77 302 300 301 0,
          Action.flush,
          Action.user_log GUAC_LOG_INFO "End of agent thread."],
         Outcome.returned)
    ∧ handled_events sample_shutdown_inputs = [sample_ownership_change]
    ∧ sample_shutdown_event ∉ handled_events sample_shutdown_inputs
    ∧ (agent_event_loop sample_agent sample_atoms
        sample_shutdown_inputs).1.countP Action.is_protocol_request = 1 := by
  decide

/-- C16, amended: the worker tests the running flag at the head of the loop
only.  When the test finds the flag clear the worker logs the end of the thread
and returns without waiting for any event, whatever is still queued.  An event
that a wait returns is handled by the ordinary dispatch, with the requests of
its branch, and the loop goes on with the next head test.  A client message,
such as the synthetic shutdown event, matches no branch and causes no
action. -/
theorem shutdown_at_loop_head (agent : guac_drv_agent) (a : AgentAtoms)
    (i : LoopInput) (rest : List LoopInput) :
    (i.thread_running = false →
      agent_event_loop agent a (i :: rest)
        = ([Action.user_log GUAC_LOG_INFO "End of agent thread."],
           Outcome.returned))
    ∧ (∀ event, i.thread_running = true → i.event = some event →
      agent_event_loop agent a (i :: rest)
        = (Action.wait_for_event :: handle_event agent a i event
            ++ (agent_event_loop agent a rest).1,
           (agent_event_loop agent a rest).2))
    ∧ (∀ event, event.response_type % 128 = XCB_CLIENT_MESSAGE →
      a.xfixes_first_event + XCB_XFIXES_SELECTION_NOTIFY ≠ XCB_CLIENT_MESSAGE →
      handle_event agent a i event = []) := by
  refine ⟨?_, ?_, ?_⟩
  · intro hrun
    simp [agent_event_loop, hrun]
  · intro event hrun hevent
    simp [agent_event_loop, hrun, hevent]
  · intro event htype hxfixes
    exact handle_event_client_message agent a i event htype hxfixes

/-- Witness of C16, amended: with the flag found clear the worker returns at
once, the synthetic event left in the queue; and the synthetic event, when it
is the one dequeued, causes no action. -/
theorem shutdown_at_loop_head_witness :
    agent_event_loop sample_agent sample_atoms
        [{ thread_running := false, event := some sample_shutdown_event,
           property_error := false, property_reply := sample_empty_reply,
           stream := 3, clipboard := sample_clipboard }]
      = ([Action.user_log GUAC_LOG_INFO "End of agent thread."],
         Outcome.returned)
    ∧ handle_event sample_agent sample_atoms
        { thread_running := false, event := some sample_shutdown_event,
          property_error := false, property_reply := sample_empty_reply,
          stream := 3, clipboard := sample_clipboard }
        sample_shutdown_event = [] :=
  ⟨(shutdown_at_loop_head sample_agent sample_atoms
      { thread_running := false, event := some sample_shutdown_event,
        property_error := false, property_reply := sample_empty_reply,
        stream := 3, clipboard := sample_clipboard } []).1 rfl,
   (shutdown_at_loop_head sample_agent sample_atoms
      { thread_running := false, event := some sample_shutdown_event,
        property_error := false, property_reply := sample_empty_reply,
        stream := 3, clipboard := sample_clipboard } []).2.2
      sample_shutdown_event (by decide) (by decide)⟩

/-! ## The shared clipboard in the course of a stream -/

/-- When the bytes in use are the whole list held and the blobs fit the
capacity left, the blob handler run for each blob stores their
concatenation after the bytes in use. -/
theorem clipboard_after_blobs_eq (stream : guac_stream)
    (blobs : List (List Nat)) :
    ∀ clipboard : guac_common_clipboard,
      clipboard.buffer.length = clipboard.length →
      clipboard.length + blobs.flatten.length ≤ clipboard.available →
      clipboard_after_blobs clipboard stream blobs
        = { clipboard with
              buffer := clipboard.buffer ++ blobs.flatten,
              length := clipboard.length + blobs.flatten.length } := by
  induction blobs with
  | nil =>
    intro clipboard _ _
    simp [clipboard_after_blobs]
  | cons b rest ih =>
    intro clipboard hlen hfit
    simp only [List.flatten_cons, List.length_append] at hfit
    have hb : b.length ≤ clipboard.available - clipboard.length := by omega
    have hstep : (guac_drv_clipboard_blob_handler clipboard stream b).clipboard
        = { clipboard with
              buffer := clipboard.buffer ++ b,
              length := clipboard.length + b.length } := by
      have htake : clipboard.buffer.take clipboard.length = clipboard.buffer :=
        List.take_of_length_le (Nat.le_of_eq hlen)
      simp [guac_drv_clipboard_blob_handler, guac_common_clipboard_append,
        List.take_of_length_le hb, htake]
    have hfold : clipboard_after_blobs clipboard stream (b :: rest)
        = clipboard_after_blobs
            (guac_drv_clipboard_blob_handler clipboard stream b).clipboard
            stream rest := rfl
    rw [hfold, hstep, ih]
    · simp [List.flatten_cons, List.append_assoc, Nat.add_assoc]
    · simp [hlen]
    · simp only []
      omega

/-- Counterexample to C17: the clipboard holds "hello"; a new stream of type
"text/plain" delivers "copied " and then "text".  A content request handled
between the two blobs is answered with "copied ", which is neither the previous
value "hello" nor the new value "copied text". -/
theorem content_request_sees_partial_value :
    handle_event sample_agent sample_atoms
        { thread_running := true, event := some sample_content_request,
          property_error := false, property_reply := sample_empty_reply,
          stream := 3,
          clipboard := clipboard_during_inbound_stream sample_clipboard
            sample_stream "text/plain" [sample_copied] }
        sample_content_request
      = [Action.change_property 0 500 400 300 8 7
           (PropertyData.bytes [99, 111, 112, 105, 101, 100, 32]),
         Action.send_event 0 500 0
           { response_type := 31, time := 1000, requestor := 500,
             selection := 302, target := 300, property := 400 },
         Action.flush]
    ∧ sample_clipboard.buffer.take sample_clipboard.length = sample_hello
    ∧ (clipboard_during_inbound_stream sample_clipboard sample_stream
        "text/plain" [sample_copied, sample_text]).buffer
      = sample_copied_text
    ∧ [99, 111, 112, 105, 101, 100, 32] ≠ sample_hello
    ∧ [99, 111, 112, 105, 101, 100, 32] ≠ sample_copied_text := by
  decide

/-- C17, amended: a content request is answered with the bytes the shared
buffer holds at that moment.  In the course of a stream, after the clipboard
handler and the blob handler for the blobs received so far (which fit the
capacity), these are the concatenation of the blobs received so far: the new
complete value once all blobs are in, a part of it before. -/
theorem content_answer_during_stream (agent : guac_drv_agent) (a : AgentAtoms)
    (c0 : guac_common_clipboard) (s0 : guac_stream) (t : String)
    (blobs : List (List Nat)) (i : LoopInput) (content : xcb_generic_event_t)
    (hfit : blobs.flatten.length ≤ c0.available)
    (hclip : i.clipboard = clipboard_during_inbound_stream c0 s0 t blobs)
    (hxfixes : a.xfixes_first_event + XCB_XFIXES_SELECTION_NOTIFY
      ≠ XCB_SELECTION_REQUEST)
    (hc_type : content.response_type % 128 = XCB_SELECTION_REQUEST)
    (hc_selection : (as_selection_request content).selection = a.xa_clipboard)
    (hc_target : (as_selection_request content).target = a.utf8_string)
    (hc_not : (as_selection_request content).target ≠ a.xa_targets) :
    handle_event agent a i content
      = [Action.change_property XCB_PROP_MODE_REPLACE
           (as_selection_request content).requestor
           (as_selection_request content).property
           a.utf8_string 8 blobs.flatten.length
           (PropertyData.bytes blobs.flatten),
         Action.send_event 0 (as_selection_request content).requestor 0
           { response_type := XCB_SELECTION_NOTIFY,
             time := (as_selection_request content).time,
             requestor := (as_selection_request content).requestor,
             selection := a.xa_clipboard,
             target := a.utf8_string,
             property := (as_selection_request content).property },
         Action.flush] := by
  have hc : clipboard_during_inbound_stream c0 s0 t blobs
      = { mimetype := t, buffer := blobs.flatten,
          length := blobs.flatten.length, available := c0.available } := by
    unfold clipboard_during_inbound_stream
    rw [clipboard_after_blobs_eq]
    · simp [guac_drv_clipboard_handler, guac_common_clipboard_reset]
    · rfl
    · simpa [guac_drv_clipboard_handler, guac_common_clipboard_reset] using hfit
  have hnot2 : ¬ a.utf8_string = a.xa_targets := by
    rw [← hc_target]; exact hc_not
  rw [handle_event_selection_request agent a i content hc_type hxfixes]
  simp [handle_selection_request, hnot2, hc_selection, hc_target, hclip, hc]

/-- Witness of C17, amended: after both blobs of the stream the request is
answered with "copied text". -/
theorem content_answer_during_stream_witness :
    handle_event sample_agent sample_atoms
        { thread_running := true, event := some sample_content_request,
          property_error := false, property_reply := sample_empty_reply,
          stream := 3,
          clipboard := clipboard_during_inbound_stream sample_clipboard
            sample_stream "text/plain" [sample_copied, sample_text] }
        sample_content_request
      = [Action.change_property 0 500 400 300 8 11
           (PropertyData.bytes
             [99, 111, 112, 105, 101, 100, 32, 116, 101, 120, 116]),
         Action.send_event 0 500 0
           { response_type := 31, time := 1000, requestor := 500,
             selection := 302, target := 300, property := 400 },
         Action.flush] :=
  content_answer_during_stream sample_agent sample_atoms sample_clipboard
    sample_stream "text/plain" [sample_copied, sample_text]
    { thread_running := true, event := some sample_content_request,
      property_error := false, property_reply := sample_empty_reply,
      stream := 3,
      clipboard := clipboard_during_inbound_stream sample_clipboard
        sample_stream "text/plain" [sample_copied, sample_text] }
    sample_content_request (by decide) rfl (by decide) (by decide) (by decide)
    (by decide) (by decide)

/-! ## The loop survives every event -/

/-- One turn of the loop never writes the running flag. -/
theorem handle_event_keeps_flag (agent : guac_drv_agent) (a : AgentAtoms)
    (i : LoopInput) (event : xcb_generic_event_t) :
    (handle_event agent a i event).countP Action.is_set_thread_running = 0 := by
  unfold handle_event
  by_cases h1 : event.response_type % 128
      = a.xfixes_first_event + XCB_XFIXES_SELECTION_NOTIFY
  · simp [h1, Action.is_set_thread_running]
  · simp only [h1, if_false]
    split
    · unfold guac_drv_send_property_value_as_clipboard
      split <;> simp [Action.is_set_thread_running]
    · split
      · unfold handle_selection_request
        split
        · simp [Action.is_set_thread_running]
        · split <;> simp [Action.is_set_thread_running]
      · rfl

/-- The loop returns exactly when some turn finds the flag clear or gets no
event from the wait. -/
theorem agent_event_loop_returned_iff (agent : guac_drv_agent) (a : AgentAtoms)
    (inputs : List LoopInput) :
    (agent_event_loop agent a inputs).2 = Outcome.returned
      ↔ ∃ i ∈ inputs, i.thread_running = false ∨ i.event = none := by
  induction inputs with
  | nil => simp [agent_event_loop]
  | cons i rest ih =>
    unfold agent_event_loop
    cases hrun : i.thread_running with
    | false => simp [hrun]
    | true =>
      cases hevent : i.event with
      | none => simp [hevent]
      | some event => simp [hrun, hevent, ih]

/-- C18: an event handled while the running flag is set never ends the worker,
whatever the event and whatever the outcome of the requests made for it: the
handler does not write the flag and the loop goes on with the next turn.  The
worker returns only when a turn finds the flag clear or the wait yields no
event. -/
theorem no_event_terminates_worker (agent : guac_drv_agent) (a : AgentAtoms)
    (i : LoopInput) (rest : List LoopInput) (event : xcb_generic_event_t)
    (hrun : i.thread_running = true) (hevent : i.event = some event) :
    (handle_event agent a i event).countP Action.is_set_thread_running = 0
    ∧ agent_event_loop agent a (i :: rest)
      = (Action.wait_for_event :: handle_event agent a i event
          ++ (agent_event_loop agent a rest).1,
         (agent_event_loop agent a rest).2)
    ∧ ((agent_event_loop agent a (i :: rest)).2 = Outcome.returned
      ↔ ∃ j ∈ rest, j.thread_running = false ∨ j.event = none) := by
  have hloop : agent_event_loop agent a (i :: rest)
      = (Action.wait_for_event :: handle_event agent a i event
          ++ (agent_event_loop agent a rest).1,
         (agent_event_loop agent a rest).2) := by
    simp [agent_event_loop, hrun, hevent]
  refine ⟨handle_event_keeps_flag agent a i event, hloop, ?_⟩
  rw [hloop]
  exact agent_event_loop_returned_iff agent a rest

/-- Witness of C18: a failed read, an unsupported request and a client message
are handled in turn and the worker is still in its loop. -/
theorem no_event_terminates_worker_witness :
    (agent_event_loop sample_agent sample_atoms
        [sample_input sample_conversion_result true sample_empty_reply,
         sample_input sample_unsupported_request false sample_empty_reply,
         sample_input sample_shutdown_event false sample_empty_reply]).2
      = Outcome.running
    ∧ ((agent_event_loop sample_agent sample_atoms
        [sample_input sample_conversion_result true sample_empty_reply,
         sample_input sample_unsupported_request false sample_empty_reply,
         sample_input sample_shutdown_event false sample_empty_reply]).2
        = Outcome.returned
      ↔ ∃ j ∈ [sample_input sample_unsupported_request false sample_empty_reply,
               sample_input sample_shutdown_event false sample_empty_reply],
          j.thread_running = false ∨ j.event = none) :=
  ⟨by decide,
   (no_event_terminates_worker sample_agent sample_atoms
     (sample_input sample_conversion_result true sample_empty_reply)
     [sample_input sample_unsupported_request false sample_empty_reply,
      sample_input sample_shutdown_event false sample_empty_reply]
     sample_conversion_result rfl rfl).2.2⟩

/-! ## The bound on a conversion-result read -/

/-- C19: the property read starts at offset 0 and asks for 1024 words, that is
4096 bytes.  When the server answers that read for a property of format 8
holding the bytes `stored`, the one blob forwarded holds the first 4096 bytes
of `stored` (all of them when there are no more): it is never longer than 4096
bytes, it is exactly 4096 bytes long when the property is longer, and no second
read is made. -/
theorem conversion_read_bounded (agent : guac_drv_agent) (a : AgentAtoms)
    (i : LoopInput) (event : xcb_generic_event_t) (stored : List Nat)
    (htype : event.response_type % 128 = XCB_SELECTION_NOTIFY)
    (hxfixes : a.xfixes_first_event + XCB_XFIXES_SELECTION_NOTIFY
      ≠ XCB_SELECTION_NOTIFY)
    (hok : i.property_error = false)
    (hreply : i.property_reply = x11_get_property_reply stored 0 1024) :
    handle_event agent a i event
      = [Action.get_property 1 (as_selection_notify event).requestor
           (as_selection_notify event).property a.utf8_string 0 1024,
         Action.get_property_reply,
         Action.alloc_stream,
         Action.send_clipboard i.stream "text/plain",
         Action.send_blob i.stream (stored.take 4096),
         Action.send_end i.stream,
         Action.free_stream i.stream,
         Action.socket_flush]
    ∧ (stored.take 4096).length ≤ 4096
    ∧ (4096 < stored.length → (stored.take 4096).length = 4096)
    ∧ (stored.length ≤ 4096 → stored.take 4096 = stored)
    ∧ (handle_event agent a i event).countP Action.is_get_property = 1 := by
  have h : handle_event agent a i event
      = [Action.get_property 1 (as_selection_notify event).requestor
           (as_selection_notify event).property a.utf8_string 0 1024,
         Action.get_property_reply,
         Action.alloc_stream,
         Action.send_clipboard i.stream "text/plain",
         Action.send_blob i.stream (stored.take 4096),
         Action.send_end i.stream,
         Action.free_stream i.stream,
         Action.socket_flush] := by
    rw [handle_event_selection_notify agent a i event htype hxfixes]
    simp [guac_drv_send_property_value_as_clipboard, hok, hreply,
      x11_get_property_reply, xcb_get_property_value_length]
  refine ⟨h, List.length_take_le 4096 stored, ?_, ?_, ?_⟩
  · intro hlong
    rw [List.length_take]
    omega
  · intro hshort
    exact List.take_of_length_le hshort
  · rw [h]; rfl

/-- Witness of C19: of a property of 5000 bytes the blob carries 4096. -/
theorem conversion_read_bounded_witness :
    4096 < sample_long_value.length
    ∧ handle_event sample_agent sample_atoms
        (sample_input sample_conversion_result false
          (x11_get_property_reply sample_long_value 0 1024))
        sample_conversion_result
      = [Action.get_property 1 77 301 300 0 1024,
         Action.get_property_reply,
         Action.alloc_stream,
         Action.send_clipboard 3 "text/plain",
         Action.send_blob 3 (sample_long_value.take 4096),
         Action.send_end 3,
         Action.free_stream 3,
         Action.socket_flush]
    ∧ (sample_long_value.take 4096).length = 4096 :=
  ⟨by rw [sample_long_value, List.length_replicate]; decide,
   (conversion_read_bounded sample_agent sample_atoms
     (sample_input sample_conversion_result false
       (x11_get_property_reply sample_long_value 0 1024))
     sample_conversion_result sample_long_value (by decide) (by decide) rfl
     rfl).1,
   (conversion_read_bounded sample_agent sample_atoms
     (sample_input sample_conversion_result false
       (x11_get_property_reply sample_long_value 0 1024))
     sample_conversion_result sample_long_value (by decide) (by decide) rfl
     rfl).2.2.1 (by rw [sample_long_value, List.length_replicate]; decide)⟩

/-! ## Allocation of the agent -/

/-- C20: `guac_drv_agent_alloc` returns `NULL` exactly when no connection is
obtained.  With a connection it creates the scratch window, flushes, tries to
start the thread and returns the agent: with the running flag set when the
thread started, and with the flag clear and one warning logged when it did
not. -/
theorem agent_alloc_result (connection : Option AllocInput) :
    ((guac_drv_agent_alloc connection).1 = none ↔ connection = none)
    ∧ (connection = none →
        (guac_drv_agent_alloc connection).2 = [Action.get_connection])
    ∧ (∀ c, connection = some c →
        (guac_drv_agent_alloc connection).2.take 6
          = [Action.get_connection,
             Action.malloc_agent,
             Action.generate_id,
             Action.create_window 0 c.generated_id c.screen_root 0 0 1 1 0
               XCB_WINDOW_CLASS_COPY_FROM_PARENT XCB_COPY_FROM_PARENT
               XCB_CW_EVENT_MASK [XCB_EVENT_MASK_PROPERTY_CHANGE],
             Action.flush,
             Action.pthread_create]
        ∧ (c.pthread_create = 0 →
            (guac_drv_agent_alloc connection).1
              = some { agent := { dummy := c.generated_id },
                       thread_running := true }
            ∧ (guac_drv_agent_alloc connection).2.drop 6
              = [Action.set_thread_running true])
        ∧ (c.pthread_create ≠ 0 →
            (guac_drv_agent_alloc connection).1
              = some { agent := { dummy := c.generated_id },
                       thread_running := false }
            ∧ (guac_drv_agent_alloc connection).2.drop 6
              = [Action.user_log GUAC_LOG_WARNING
                   "Unable to start agent thread. Clipboard access will not work.",
                 Action.set_thread_running false])) := by
  cases connection with
  | none =>
    refine ⟨by simp [guac_drv_agent_alloc], fun _ => rfl, ?_⟩
    intro c hc
    cases hc
  | some c0 =>
    refine ⟨?_, ?_, ?_⟩
    · by_cases hp : c0.pthread_create = 0 <;> simp [guac_drv_agent_alloc, hp]
    · intro h; cases h
    · intro c hc
      cases hc
      by_cases hp : c0.pthread_create = 0
      · refine ⟨by simp [guac_drv_agent_alloc, hp], ?_, fun hne => absurd hp hne⟩
        intro _
        simp [guac_drv_agent_alloc, hp]
      · refine ⟨by simp [guac_drv_agent_alloc, hp], fun h => absurd h hp, ?_⟩
        intro _
        simp [guac_drv_agent_alloc, hp]

/-- Witness of C20: with a connection and a thread that cannot be started the
agent is returned, its flag clear, after one warning. -/
theorem agent_alloc_result_witness :
    guac_drv_agent_alloc (some sample_alloc_input_no_thread)
      = (some { agent := { dummy := 77 }, thread_running := false },
         [Action.get_connection,
          Action.malloc_agent,
          Action.generate_id,
          Action.create_window 0 77 1 0 0 1 1 0 0 0 2048 [4194304],
          Action.flush,
          Action.pthread_create,
          Action.user_log GUAC_LOG_WARNING
            "Unable to start agent thread. Clipboard access will not work.",
          Action.set_thread_running false])
    ∧ (guac_drv_agent_alloc (some sample_alloc_input_no_thread)).1
      = some { agent := { dummy := 77 }, thread_running := false }
    ∧ ((guac_drv_agent_alloc none).1 = none ↔ (none : Option AllocInput) = none) :=
  ⟨by decide,
   (((agent_alloc_result (some sample_alloc_input_no_thread)).2.2
      sample_alloc_input_no_thread rfl).2.2 (by decide)).1,
   (agent_alloc_result none).1⟩

/-! ## Connection parameters -/

/-- The enumerator `DRV_ARGS_COUNT` equals the number of names in
`GUAC_DRV_CLIENT_ARGS`, with and without SFTP support. -/
theorem DRV_ARGS_COUNT_eq_length (enable_common_ssh : Bool) :
    DRV_ARGS_COUNT enable_common_ssh
      = (GUAC_DRV_CLIENT_ARGS enable_common_ssh).length := by
  cases enable_common_ssh <;> decide

/-- C21: `guac_drv_parse_args` returns `NULL` exactly when `argc` differs from
the number of names in `GUAC_DRV_CLIENT_ARGS` (8 without SFTP support, 16 with
it); it then logs one warning.  For `argc` equal to that number it returns a
settings object and logs nothing itself. -/
theorem parse_args_null_iff (enable_common_ssh : Bool) (p : ArgParsers)
    (argc : Int) (argv : List String) :
    ((guac_drv_parse_args enable_common_ssh p argc argv).1 = none
      ↔ argc ≠ ((GUAC_DRV_CLIENT_ARGS enable_common_ssh).length : Int))
    ∧ (argc ≠ ((GUAC_DRV_CLIENT_ARGS enable_common_ssh).length : Int) →
        (guac_drv_parse_args enable_common_ssh p argc argv).2
          = [Action.user_log_format GUAC_LOG_WARNING
               "Incorrect number of connection parameters provided: expected %i, got %i."
               [((GUAC_DRV_CLIENT_ARGS enable_common_ssh).length : Int), argc]]
        ∧ (guac_drv_parse_args enable_common_ssh p argc argv).2.countP
            Action.is_user_log = 1)
    ∧ (argc = ((GUAC_DRV_CLIENT_ARGS enable_common_ssh).length : Int) →
        (guac_drv_parse_args enable_common_ssh p argc argv).1.isSome = true
        ∧ (guac_drv_parse_args enable_common_ssh p argc argv).2 = [])
    ∧ (GUAC_DRV_CLIENT_ARGS false).length = 8
    ∧ (GUAC_DRV_CLIENT_ARGS true).length = 16 := by
  have hcount := DRV_ARGS_COUNT_eq_length enable_common_ssh
  refine ⟨?_, ?_, ?_, by decide, by decide⟩
  · by_cases h : argc = ((GUAC_DRV_CLIENT_ARGS enable_common_ssh).length : Int)
    · simp [guac_drv_parse_args, hcount, h]
    · simp [guac_drv_parse_args, hcount, h]
  · intro h
    simp [guac_drv_parse_args, hcount, h, Action.is_user_log]
  · intro h
    simp [guac_drv_parse_args, hcount, h]

/-- Witness of C21: eight values give a settings object, three give `NULL`. -/
theorem parse_args_null_iff_witness :
    (guac_drv_parse_args false sample_parsers 8 sample_argv).1.isSome = true
    ∧ (guac_drv_parse_args false sample_parsers 8 sample_argv).2 = []
    ∧ (guac_drv_parse_args false sample_parsers 3 ["true", "", "/tmp"]).2
      = [Action.user_log_format GUAC_LOG_WARNING
           "Incorrect number of connection parameters provided: expected %i, got %i."
           [8, 3]] :=
  ⟨((parse_args_null_iff false sample_parsers 8 sample_argv).2.2.1
      (by decide)).1,
   ((parse_args_null_iff false sample_parsers 8 sample_argv).2.2.1
      (by decide)).2,
   ((parse_args_null_iff false sample_parsers 3 ["true", "", "/tmp"]).2.1
      (by decide)).1⟩

/-! ## The window of a conversion-result read -/

/-- Counterexample to C22: a SelectionNotify naming window 500 as requestor
makes the worker, whose scratch window is 77, read (and delete) property 400
of window 500. -/
theorem conversion_read_on_foreign_window :
    handle_event sample_agent sample_atoms
        (sample_input sample_foreign_notify false sample_reply)
        sample_foreign_notify
      = [Action.get_property 1 500 400 300 0 1024,
         Action.get_property_reply,
         Action.alloc_stream,
         Action.send_clipboard 3 "text/plain",
         Action.send_blob 3 [99, 111, 112, 105, 101, 100, 32, 116, 101, 120, 116],
         Action.send_end 3,
         Action.free_stream 3,
         Action.socket_flush]
    ∧ sample_agent.dummy = 77
    ∧ (500 : Nat) ≠ sample_agent.dummy := by
  decide

/-- C22, amended: for every conversion result the one property read is
addressed to the window in the requestor field of the notification and to the
property named in it; that window is the scratch window of the worker when the
requestor field holds it, as in the answer to a conversion request of the
worker. -/
theorem conversion_read_addressed (agent : guac_drv_agent) (a : AgentAtoms)
    (i : LoopInput) (event : xcb_generic_event_t)
    (htype : event.response_type % 128 = XCB_SELECTION_NOTIFY)
    (hxfixes : a.xfixes_first_event + XCB_XFIXES_SELECTION_NOTIFY
      ≠ XCB_SELECTION_NOTIFY) :
    (handle_event agent a i event).filter Action.is_get_property
      = [Action.get_property 1 (as_selection_notify event).requestor
           (as_selection_notify event).property a.utf8_string 0 1024]
    ∧ ((as_selection_notify event).requestor = agent.dummy →
        (handle_event agent a i event).filter Action.is_get_property
          = [Action.get_property 1 agent.dummy
               (as_selection_notify event).property a.utf8_string 0 1024]) := by
  have h : (handle_event agent a i event).filter Action.is_get_property
      = [Action.get_property 1 (as_selection_notify event).requestor
           (as_selection_notify event).property a.utf8_string 0 1024] := by
    rw [handle_event_selection_notify agent a i event htype hxfixes]
    unfold guac_drv_send_property_value_as_clipboard
    split <;> simp [Action.is_get_property]
  refine ⟨h, ?_⟩
  intro hreq
  rw [h, hreq]

/-- Witness of C22, amended: the answer to the conversion request of the worker
names the scratch window 77 and the property XSEL_DATA. -/
theorem conversion_read_addressed_witness :
    (handle_event sample_agent sample_atoms
        (sample_input sample_conversion_result false sample_reply)
        sample_conversion_result).filter Action.is_get_property
      = [Action.get_property 1 77 301 300 0 1024] :=
  (conversion_read_addressed sample_agent sample_atoms
    (sample_input sample_conversion_result false sample_reply)
    sample_conversion_result (by decide) (by decide)).2 rfl

/-! ## Selection checked on the content path only -/

/-- C24: a request with target UTF8_STRING (not TARGETS) for a selection other
than CLIPBOARD is handled as unsupported, with a warning, no property write and
the property NONE in the reply; a request with target TARGETS is answered with
the target list whatever its selection. -/
theorem selection_checked_on_content_path_only (agent : guac_drv_agent)
    (a : AgentAtoms) (i : LoopInput) (content targets : xcb_generic_event_t)
    (hxfixes : a.xfixes_first_event + XCB_XFIXES_SELECTION_NOTIFY
      ≠ XCB_SELECTION_REQUEST)
    (hc_type : content.response_type % 128 = XCB_SELECTION_REQUEST)
    (hc_target : (as_selection_request content).target = a.utf8_string)
    (hc_not : (as_selection_request content).target ≠ a.xa_targets)
    (hc_selection : (as_selection_request content).selection ≠ a.xa_clipboard)
    (ht_type : targets.response_type % 128 = XCB_SELECTION_REQUEST)
    (ht_target : (as_selection_request targets).target = a.xa_targets) :
    handle_event agent a i content
      = [Action.user_log GUAC_LOG_WARNING
           "Window requested unsupported selection/target.",
         Action.send_event 0 (as_selection_request content).requestor 0
           { response_type := XCB_SELECTION_NOTIFY,
             time := (as_selection_request content).time,
             requestor := (as_selection_request content).requestor,
             selection := (as_selection_request content).selection,
             target := a.utf8_string,
             property := XCB_ATOM_NONE },
         Action.flush]
    ∧ (handle_event agent a i content).countP Action.is_change_property = 0
    ∧ handle_event agent a i targets
      = [Action.change_property XCB_PROP_MODE_REPLACE
           (as_selection_request targets).requestor
           (as_selection_request targets).property
           a.xa_targets 32 2
           (PropertyData.atoms [a.utf8_string, a.xa_targets]),
         Action.send_event 0 (as_selection_request targets).requestor 0
           { response_type := XCB_SELECTION_NOTIFY,
             time := (as_selection_request targets).time,
             requestor := (as_selection_request targets).requestor,
             selection := (as_selection_request targets).selection,
             target := a.xa_targets,
             property := (as_selection_request targets).property },
         Action.flush] := by
  have hc : handle_event agent a i content
      = [Action.user_log GUAC_LOG_WARNING
           "Window requested unsupported selection/target.",
         Action.send_event 0 (as_selection_request content).requestor 0
           { response_type := XCB_SELECTION_NOTIFY,
             time := (as_selection_request content).time,
             requestor := (as_selection_request content).requestor,
             selection := (as_selection_request content).selection,
             target := a.utf8_string,
             property := XCB_ATOM_NONE },
         Action.flush] := by
    rw [handle_event_selection_request agent a i content hc_type hxfixes]
    unfold handle_selection_request
    rw [if_neg hc_not, if_neg (fun h => hc_selection h.1), hc_target]
    rfl
  refine ⟨hc, ?_, ?_⟩
  · rw [hc]; rfl
  · rw [handle_event_selection_request agent a i targets ht_type hxfixes]
    simp [handle_selection_request, ht_target]

/-- Witness of C24 with the selection PRIMARY. -/
theorem selection_checked_on_content_path_only_witness :
    handle_event sample_agent sample_atoms
        (sample_input sample_primary_content_request false sample_empty_reply)
        sample_primary_content_request
      = [Action.user_log GUAC_LOG_WARNING
           "Window requested unsupported selection/target.",
         Action.send_event 0 500 0
           { response_type := 31, time := 1000, requestor := 500,
             selection := 1, target := 300, property := 0 },
         Action.flush]
    ∧ handle_event sample_agent sample_atoms
        (sample_input sample_primary_content_request false sample_empty_reply)
        sample_primary_targets_request
      = [Action.change_property 0 500 400 303 32 2
           (PropertyData.atoms [300, 303]),
         Action.send_event 0 500 0
           { response_type := 31, time := 1000, requestor := 500,
             selection := 1, target := 303, property := 400 },
         Action.flush] :=
  ⟨(selection_checked_on_content_path_only sample_agent sample_atoms
      (sample_input sample_primary_content_request false sample_empty_reply)
      sample_primary_content_request sample_primary_targets_request
      (by decide) (by decide) (by decide) (by decide) (by decide) (by decide)
      (by decide)).1,
   (selection_checked_on_content_path_only sample_agent sample_atoms
      (sample_input sample_primary_content_request false sample_empty_reply)
      sample_primary_content_request sample_primary_targets_request
      (by decide) (by decide) (by decide) (by decide) (by decide) (by decide)
      (by decide)).2.2⟩

/-! ## Dispatch on the low seven bits -/

/-- Flipping bit 0x80 leaves the low seven bits as they are. -/
theorem xor_128_mod_128 (r : Nat) : (r ^^^ 128) % 128 = r % 128 := by
  apply Nat.eq_of_testBit_eq
  intro k
  rw [show (128 : Nat) = 2 ^ 7 by norm_num]
  simp only [Nat.testBit_mod_two_pow, Nat.testBit_xor, Nat.testBit_two_pow]
  by_cases h : k < 7
  · have h7 : ¬ (7 = k) := by omega
    simp [h, h7]
  · simp [h]

/-- C25: the worker handles an event exactly as it handles the same event with
bit 0x80 of its response type flipped.  The event type is tested in a chain, so
that the cases are exclusive: an ownership change takes the first branch; an
event that is none and has type SelectionNotify takes the second; an event
that is none and has type SelectionRequest takes the third (the two core codes
differ); any other event causes no action. -/
theorem dispatch_ignores_sent_flag (agent : guac_drv_agent) (a : AgentAtoms)
    (i : LoopInput) (event : xcb_generic_event_t) :
    handle_event agent a i (flip_sent_flag event) = handle_event agent a i event
    ∧ ¬ (event.response_type % 128 = XCB_SELECTION_NOTIFY
        ∧ event.response_type % 128 = XCB_SELECTION_REQUEST)
    ∧ (event.response_type % 128
          = a.xfixes_first_event + XCB_XFIXES_SELECTION_NOTIFY →
        handle_event agent a i event
          = [Action.convert_selection agent.dummy a.xa_clipboard a.utf8_string
               a.xsel_data XCB_CURRENT_TIME,
             Action.flush])
    ∧ (event.response_type % 128
          ≠ a.xfixes_first_event + XCB_XFIXES_SELECTION_NOTIFY →
        event.response_type % 128 = XCB_SELECTION_NOTIFY →
        handle_event agent a i event
          = guac_drv_send_property_value_as_clipboard
              (as_selection_notify event).requestor
              (as_selection_notify event).property
              a.utf8_string i.property_error i.property_reply i.stream)
    ∧ (event.response_type % 128
          ≠ a.xfixes_first_event + XCB_XFIXES_SELECTION_NOTIFY →
        event.response_type % 128 = XCB_SELECTION_REQUEST →
        handle_event agent a i event
          = handle_selection_request a i.clipboard
              (as_selection_request event))
    ∧ (event.response_type % 128
          ≠ a.xfixes_first_event + XCB_XFIXES_SELECTION_NOTIFY →
        event.response_type % 128 ≠ XCB_SELECTION_NOTIFY →
        event.response_type % 128 ≠ XCB_SELECTION_REQUEST →
        handle_event agent a i event = []) := by
  refine ⟨?_, ?_, ?_, ?_, ?_, ?_⟩
  · simp only [handle_event, flip_sent_flag, xor_128_mod_128,
      as_selection_notify, as_selection_request]
  · intro h
    rw [h.1] at h
    exact absurd h.2 (by decide)
  · intro h1
    show (if event.response_type % 128
        = a.xfixes_first_event + XCB_XFIXES_SELECTION_NOTIFY then _
      else _) = _
    rw [if_pos h1]
  · intro h1 h2
    show (if event.response_type % 128
        = a.xfixes_first_event + XCB_XFIXES_SELECTION_NOTIFY then _
      else if event.response_type % 128 = XCB_SELECTION_NOTIFY then _
      else _) = _
    rw [if_neg h1, if_pos h2]
  · intro h1 h3
    have h2 : ¬ (event.response_type % 128 = XCB_SELECTION_NOTIFY) := by
      rw [h3]; decide
    show (if event.response_type % 128
        = a.xfixes_first_event + XCB_XFIXES_SELECTION_NOTIFY then _
      else if event.response_type % 128 = XCB_SELECTION_NOTIFY then _
      else if event.response_type % 128 = XCB_SELECTION_REQUEST then _
      else _) = _
    rw [if_neg h1, if_neg h2, if_pos h3]
  · intro h1 h2 h3
    show (if event.response_type % 128
        = a.xfixes_first_event + XCB_XFIXES_SELECTION_NOTIFY then _
      else if event.response_type % 128 = XCB_SELECTION_NOTIFY then _
      else if event.response_type % 128 = XCB_SELECTION_REQUEST then _
      else _) = _
    rw [if_neg h1, if_neg h2, if_neg h3]

/-- Witness of C25: the content request of window 500 is handled the same with
response type 30 and with response type 158. -/
theorem dispatch_ignores_sent_flag_witness :
    (flip_sent_flag sample_content_request).response_type = 158
    ∧ handle_event sample_agent sample_atoms
        (sample_input sample_content_request false sample_empty_reply)
        (flip_sent_flag sample_content_request)
      = handle_event sample_agent sample_atoms
        (sample_input sample_content_request false sample_empty_reply)
        sample_content_request
    ∧ handle_event sample_agent sample_atoms
        (sample_input sample_shutdown_event false sample_empty_reply)
        sample_shutdown_event = [] :=
  ⟨by decide,
   (dispatch_ignores_sent_flag sample_agent sample_atoms
     (sample_input sample_content_request false sample_empty_reply)
     sample_content_request).1,
   (dispatch_ignores_sent_flag sample_agent sample_atoms
     (sample_input sample_shutdown_event false sample_empty_reply)
     sample_shutdown_event).2.2.2.2.2 (by decide) (by decide) (by decide)⟩

/-! ## The registration is not flushed -/

/-- C26 on the code: on a server that resolves everything, the action that
follows the registration with XFixes is the wait for the first event; there is
no flush of the connection between the two, and the first flush of the run
comes after the first event has been handled. -/
theorem registration_not_flushed_before_wait :
    (guac_drv_agent_thread sample_agent sample_server
        [sample_input sample_ownership_change false sample_empty_reply]).1
      = [Action.get_atom "UTF8_STRING", Action.get_atom "XSEL_DATA",
         Action.get_atom "CLIPBOARD", Action.get_atom "TARGETS",
         Action.init_xfixes,
         Action.xfixes_select_selection_input_checked 77 302 7,
         Action.wait_for_event,
         Action.convert_selection 77 302 300 301 0,
         Action.flush]
    ∧ ((guac_drv_agent_thread sample_agent sample_server
        [sample_input sample_ownership_change false sample_empty_reply]).1.takeWhile
        (fun act => !act.is_wait_for_event)).count Action.flush = 0 := by
  decide

/-! ## Screen resize -/

/-- A size within the range of `uint16_t` is passed as it is. -/
theorem to_uint16_of_range (v : Int) (h0 : 0 ≤ v) (h1 : v < 65536) :
    to_uint16 v = v.toNat := by
  unfold to_uint16
  rw [Int.emod_eq_of_lt h0 h1]

/-- A size within the range of `uint32_t` is passed as it is. -/
theorem to_uint32_of_range (v : Int) (h0 : 0 ≤ v) (h1 : v < 4294967296) :
    to_uint32 v = v.toNat := by
  unfold to_uint32
  rw [Int.emod_eq_of_lt h0 h1]

/-- Counterexample to C30: for w = 70000, h = 100 and dpi = 96 the request
carries the width 4464 (70000 modulo 65536), neither 70000 * 96 / 96 nor w. -/
theorem resize_width_truncated :
    guac_drv_agent_resize_display sample_agent 96 false 70000 100
      = ([Action.randr_set_screen_size_checked 77 4464 100 18520 26,
          Action.flush,
          Action.user_log_format GUAC_LOG_DEBUG
            "Requested screen resize to %ix%i pixels (%ix%i mm)."
            [70000, 100, 18520, 26],
          Action.request_check],
         0)
    ∧ (70000 * 96 : Int).tdiv 96 = 70000
    ∧ (4464 : Nat) ≠ 70000 := by
  decide

/-- The truncated quotient of a non-negative number by a positive one lies
between 0 and the number. -/
theorem tdiv_bounds (n d : Int) (hn : 0 ≤ n) (hd : 0 < d) :
    0 ≤ n.tdiv d ∧ n.tdiv d ≤ n := by
  have hd0 : 0 ≤ d := Int.le_of_lt hd
  refine ⟨Int.tdiv_nonneg hn hd0, ?_⟩
  rw [Int.tdiv_eq_ediv hn hd0]
  exact Int.ediv_le_self d hn

/-- C30, amended: for dpi > 0 and w, h ≥ 0 with w * 254 and h * 254 within the
range of `int` and with scaled sizes w * 96 / dpi and h * 96 / dpi below 65536
(the sizes travel in 16-bit fields), the request carries the pixel size
w * 96 / dpi by h * 96 / dpi and the physical size w * 254 / dpi / 10 by
h * 254 / dpi / 10, the divisions truncating and the millimetres computed from
the unscaled w and h; the request is followed by a flush, a debug line and the
check; at dpi = 96 the pixel size is (w, h); the value returned is 1 when the
check reports an error and 0 otherwise. -/
theorem resize_display_request (agent : guac_drv_agent) (dpi : Int)
    (check_error : Bool) (w h : Int)
    (hdpi : 0 < dpi) (hw0 : 0 ≤ w) (hh0 : 0 ≤ h)
    (hwi : w * 254 < 2147483648) (hhi : h * 254 < 2147483648)
    (hw16 : (w * 96).tdiv dpi < 65536) (hh16 : (h * 96).tdiv dpi < 65536) :
    (guac_drv_agent_resize_display agent dpi check_error w h).1
      = [Action.randr_set_screen_size_checked agent.dummy
           ((w * 96).tdiv dpi).toNat ((h * 96).tdiv dpi).toNat
           (((w * 254).tdiv dpi).tdiv 10).toNat
           (((h * 254).tdiv dpi).tdiv 10).toNat,
         Action.flush,
         Action.user_log_format GUAC_LOG_DEBUG
           "Requested screen resize to %ix%i pixels (%ix%i mm)."
           [(w * 96).tdiv dpi, (h * 96).tdiv dpi,
            ((w * 254).tdiv dpi).tdiv 10, ((h * 254).tdiv dpi).tdiv 10],
         Action.request_check]
    ∧ (guac_drv_agent_resize_display agent dpi check_error w h).2
      = (if check_error then 1 else 0)
    ∧ (dpi = 96 → (w * 96).tdiv dpi = w ∧ (h * 96).tdiv dpi = h) := by
  have hw96 := tdiv_bounds (w * 96) dpi (by omega) hdpi
  have hh96 := tdiv_bounds (h * 96) dpi (by omega) hdpi
  have hwm := tdiv_bounds (w * 254) dpi (by omega) hdpi
  have hhm := tdiv_bounds (h * 254) dpi (by omega) hdpi
  have hwm10 := tdiv_bounds ((w * 254).tdiv dpi) 10 hwm.1 (by decide)
  have hhm10 := tdiv_bounds ((h * 254).tdiv dpi) 10 hhm.1 (by decide)
  refine ⟨?_, rfl, ?_⟩
  · unfold guac_drv_agent_resize_display
    simp only []
    rw [to_uint16_of_range _ hw96.1 hw16, to_uint16_of_range _ hh96.1 hh16,
      to_uint32_of_range _ hwm10.1 (by omega),
      to_uint32_of_range _ hhm10.1 (by omega)]
  · intro h96
    subst h96
    exact ⟨Int.mul_tdiv_cancel w (by decide), Int.mul_tdiv_cancel h (by decide)⟩

/-- Witness of C30, amended: 1920 by 1080 at 144 dpi gives 1280 by 720 pixels
and 338 by 190 millimetres. -/
theorem resize_display_request_witness :
    (guac_drv_agent_resize_display sample_agent 144 true 1920 1080).1
      = [Action.randr_set_screen_size_checked 77 1280 720 338 190,
         Action.flush,
         Action.user_log_format GUAC_LOG_DEBUG
           "Requested screen resize to %ix%i pixels (%ix%i mm)."
           [1280, 720, 338, 190],
         Action.request_check]
    ∧ (guac_drv_agent_resize_display sample_agent 144 true 1920 1080).2 = 1 :=
  ⟨(resize_display_request sample_agent 144 true 1920 1080 (by decide)
      (by decide) (by decide) (by decide) (by decide) (by decide)
      (by decide)).1,
   (resize_display_request sample_agent 144 true 1920 1080 (by decide)
      (by decide) (by decide) (by decide) (by decide) (by decide)
      (by decide)).2.1⟩

/-! ## Lines copied by the drawing hooks -/

/-- C23 on the code: for the line from (10, 10) to (0, 10) on a window the
region copied starts at (10, 10) with width -10 and height 0, and it is the
same for the line widths 1 and 5. -/
theorem copy_line_region_of_leftward_line :
    guac_drv_copy_line true { lineWidth := 5 } 10 10 0 10
      = [DrawOp.copy_fb 10 10 (-10) 0 10 10, DrawOp.display_touch]
    ∧ guac_drv_copy_line true { lineWidth := 1 } 10 10 0 10
      = guac_drv_copy_line true { lineWidth := 5 } 10 10 0 10 := by
  decide

/-- C27 on the code: for the rectangle at (0, 0) of width 10 and height 5 the
four lines copied join (0, 0), (10, 0), (10, 10) and (0, 10): the lower edge
is placed at y + width = 10, not at y + height = 5. -/
theorem polyrectangle_lines_of_10_by_5 :
    guac_drv_polyrectangle true { lineWidth := 1 } 1
        [{ x := 0, y := 0, width := 10, height := 5 }]
      = [DrawOp.fbPolyRectangle 1,
         DrawOp.copy_fb 0 0 10 0 0 0, DrawOp.display_touch,
         DrawOp.copy_fb 10 0 0 10 10 0, DrawOp.display_touch,
         DrawOp.copy_fb 10 10 (-10) 0 10 10, DrawOp.display_touch,
         DrawOp.copy_fb 0 10 0 (-10) 0 10, DrawOp.display_touch]
    ∧ guac_drv_polyrectangle true { lineWidth := 1 } 1
        [{ x := 0, y := 0, width := 10, height := 5 }]
      ≠ DrawOp.fbPolyRectangle 1 ::
        (guac_drv_copy_line true { lineWidth := 1 } 0 0 10 0
          ++ guac_drv_copy_line true { lineWidth := 1 } 10 0 10 5
          ++ guac_drv_copy_line true { lineWidth := 1 } 10 5 0 5
          ++ guac_drv_copy_line true { lineWidth := 1 } 0 5 0 0) := by
  decide

/-- The loop of `guac_drv_polyline` copies the lines between consecutive
vertices, starting from the previous point. -/
theorem polyline_loop_eq (is_window : Bool) (gc : GC) (mode : Int)
    (rest : List DDXPointRec) :
    ∀ x1 y1 : Int,
      polyline_loop is_window gc mode x1 y1 rest
        = (lines_between is_window gc
            ({ x := x1, y := y1 }
              :: vertices_after mode { x := x1, y := y1 } rest)).flatten := by
  induction rest with
  | nil => intro x1 y1; rfl
  | cons p rest ih =>
    intro x1 y1
    by_cases hmode : mode = CoordModePrevious
    · simp only [polyline_loop, vertices_after, lines_between, hmode, if_true,
        List.flatten_cons]
      rw [← hmode, ih]
    · simp only [polyline_loop, vertices_after, lines_between, hmode, if_false,
        List.flatten_cons]
      rw [ih]

/-- There are as many vertices after a point as there are points left. -/
theorem vertices_after_length (mode : Int) (rest : List DDXPointRec) :
    ∀ previous : DDXPointRec,
      (vertices_after mode previous rest).length = rest.length := by
  induction rest with
  | nil => intro previous; rfl
  | cons p rest ih =>
    intro previous
    simp [vertices_after, ih]

/-- In absolute mode the vertices are the points. -/
theorem vertices_after_absolute (mode : Int) (hmode : mode ≠ CoordModePrevious)
    (rest : List DDXPointRec) :
    ∀ previous : DDXPointRec, vertices_after mode previous rest = rest := by
  induction rest with
  | nil => intro previous; rfl
  | cons p rest ih =>
    intro previous
    simp [vertices_after, hmode, ih]

/-- In `CoordModePrevious` each vertex is the one before it plus the point. -/
theorem vertices_after_previous (rest : List DDXPointRec) :
    ∀ (previous : DDXPointRec) (k : Nat) (q p : DDXPointRec),
      (previous :: vertices_after CoordModePrevious previous rest)[k]? = some q →
      rest[k]? = some p →
      (vertices_after CoordModePrevious previous rest)[k]?
        = some { x := p.x + q.x, y := p.y + q.y } := by
  induction rest with
  | nil => intro previous k q p _ hp; simp at hp
  | cons p0 rest ih =>
    intro previous k q p hq hp
    cases k with
    | zero =>
      simp only [List.getElem?_cons_zero, Option.some.injEq] at hq hp
      subst hq; subst hp
      simp [vertices_after]
    | succ k =>
      simp only [List.getElem?_cons_succ] at hq hp
      simp only [vertices_after, if_true, List.getElem?_cons_succ]
      simp only [vertices_after, if_true] at hq
      exact ih _ k q p hq hp

/-- Between n vertices there are n - 1 lines. -/
theorem lines_between_length (is_window : Bool) (gc : GC)
    (vs : List DDXPointRec) :
    (lines_between is_window gc vs).length = vs.length - 1 := by
  induction vs with
  | nil => rfl
  | cons a rest ih =>
    cases rest with
    | nil => rfl
    | cons b rest =>
      simp only [lines_between, List.length_cons, ih]
      omega

/-- On a window each line copied is one copy of a framebuffer region. -/
theorem lines_between_copies (gc : GC) (vs : List DDXPointRec) :
    (lines_between true gc vs).flatten.countP DrawOp.is_copy_fb
      = vs.length - 1 := by
  induction vs with
  | nil => rfl
  | cons a rest ih =>
    cases rest with
    | nil => rfl
    | cons b rest =>
      simp only [lines_between, List.flatten_cons, List.countP_append, ih,
        List.length_cons, guac_drv_copy_line, if_true]
      simp [List.countP_cons, DrawOp.is_copy_fb]
      omega

/-- C28: on the `npt` points p of a request `guac_drv_polyline` calls the
framebuffer routine and then copies the lines joining each vertex q[i-1] to the
next q[i], each starting where the one before ended: none when npt < 2, npt - 1
otherwise.  There are as many vertices as points; in absolute mode q = p; in
`CoordModePrevious` q[0] = p[0] and q[i] = q[i-1] + p[i]. -/
theorem polyline_lines (is_window : Bool) (gc : GC) (mode npt : Int)
    (init : List DDXPointRec) (hnpt : npt = init.length) :
    guac_drv_polyline is_window gc mode npt init
      = DrawOp.fbPolyLine mode npt ::
        (lines_between is_window gc (polyline_vertices mode init)).flatten
    ∧ (lines_between is_window gc (polyline_vertices mode init)).length
      = init.length - 1
    ∧ (npt < 2 →
        guac_drv_polyline is_window gc mode npt init
          = [DrawOp.fbPolyLine mode npt])
    ∧ (guac_drv_polyline true gc mode npt init).countP DrawOp.is_copy_fb
      = init.length - 1
    ∧ (polyline_vertices mode init).length = init.length
    ∧ (polyline_vertices mode init).head? = init.head?
    ∧ (mode ≠ CoordModePrevious → polyline_vertices mode init = init)
    ∧ (mode = CoordModePrevious →
        ∀ (k : Nat) (q p : DDXPointRec),
          (polyline_vertices mode init)[k]? = some q →
          init[k + 1]? = some p →
          (polyline_vertices mode init)[k + 1]?
            = some { x := p.x + q.x, y := p.y + q.y }) := by
  have hmain : ∀ w : Bool, guac_drv_polyline w gc mode npt init
      = DrawOp.fbPolyLine mode npt ::
        (lines_between w gc (polyline_vertices mode init)).flatten := by
    intro w
    cases init with
    | nil =>
      unfold guac_drv_polyline
      split <;> rfl
    | cons first rest =>
      have hlen : (npt - 1).toNat = rest.length := by
        rw [hnpt]
        simp
      unfold guac_drv_polyline
      by_cases hlt : npt < 2
      · have hrest : rest = [] := by
          apply List.eq_nil_of_length_eq_zero
          rw [hnpt] at hlt
          simp only [List.length_cons, Nat.cast_add, Nat.cast_one] at hlt
          omega
        subst hrest
        simp [hlt, polyline_vertices, vertices_after, lines_between]
      · simp only [hlt, if_false, hlen, List.take_length, polyline_vertices]
        rw [polyline_loop_eq]
  have hvlen : (polyline_vertices mode init).length = init.length := by
    cases init with
    | nil => rfl
    | cons first rest => simp [polyline_vertices, vertices_after_length]
  refine ⟨hmain is_window, ?_, ?_, ?_, hvlen, ?_, ?_, ?_⟩
  · rw [lines_between_length, hvlen]
  · intro hlt
    unfold guac_drv_polyline
    rw [if_pos hlt]
  · rw [hmain true]
    simp only [List.countP_cons, DrawOp.is_copy_fb, lines_between_copies, hvlen]
    simp
  · cases init <;> rfl
  · intro hmode
    cases init with
    | nil => rfl
    | cons first rest =>
      simp [polyline_vertices, vertices_after_absolute mode hmode]
  · intro hmode k q p hq hp
    subst hmode
    cases init with
    | nil => simp at hp
    | cons first rest =>
      simp only [polyline_vertices, List.getElem?_cons_succ] at hq hp ⊢
      exact vertices_after_previous rest first k q p hq hp

/-- Witness of C28: three points in `CoordModePrevious` give the two lines from
(10, 10) to (15, 10) and from (15, 10) to (15, 17). -/
theorem polyline_lines_witness :
    guac_drv_polyline true { lineWidth := 1 } CoordModePrevious 3 sample_points
      = [DrawOp.fbPolyLine 1 3,
         DrawOp.copy_fb 10 10 5 0 10 10, DrawOp.display_touch,
         DrawOp.copy_fb 15 10 0 7 15 10, DrawOp.display_touch]
    ∧ polyline_vertices CoordModePrevious sample_points
      = [{ x := 10, y := 10 }, { x := 15, y := 10 }, { x := 15, y := 17 }]
    ∧ (guac_drv_polyline true { lineWidth := 1 } CoordModePrevious 3
        sample_points).countP DrawOp.is_copy_fb = 2 :=
  ⟨(polyline_lines true { lineWidth := 1 } CoordModePrevious 3 sample_points
      (by decide)).1,
   by decide,
   (polyline_lines true { lineWidth := 1 } CoordModePrevious 3 sample_points
      (by decide)).2.2.2.1⟩

/-! ## The cursor image -/

/-- The inner loop writes the pixels `dst` to `dst + remaining - 1`, each from
the words shifted to it, and leaves the rest of the image as it was. -/
theorem cursor_render_row_spec (use_argb : Bool) (fg bg : Nat)
    (argb : Nat → Nat) (remaining : Nat) :
    ∀ (dst argb_at src mask : Nat) (image : Nat → Nat) (j : Nat),
      cursor_render_row use_argb fg bg argb remaining dst argb_at src mask
          image j
        = if dst ≤ j ∧ j < dst + remaining then
            cursor_pixel use_argb fg bg (mask >>> (j - dst)) (src >>> (j - dst))
              (argb (argb_at + (j - dst)))
          else image j := by
  induction remaining with
  | zero =>
    intro dst argb_at src mask image j
    have h : ¬ (dst ≤ j ∧ j < dst + 0) := by omega
    simp only [cursor_render_row, if_neg h]
  | succ n ih =>
    intro dst argb_at src mask image j
    simp only [cursor_render_row]
    rw [ih]
    by_cases hj : j = dst
    · subst hj
      have h1 : ¬ (j + 1 ≤ j ∧ j < j + 1 + n) := by omega
      have h2 : j ≤ j ∧ j < j + (n + 1) := by omega
      rw [if_neg h1, if_pos h2, Function.update_same]
      simp [cursor_pixel]
    · by_cases hin : dst ≤ j ∧ j < dst + (n + 1)
      · have h1 : dst + 1 ≤ j ∧ j < dst + 1 + n := by omega
        have hsub : j - dst = 1 + (j - (dst + 1)) := by omega
        rw [if_pos h1, if_pos hin, hsub, Nat.shiftRight_add, Nat.shiftRight_add]
        have harg : argb_at + 1 + (j - (dst + 1))
            = argb_at + (1 + (j - (dst + 1))) := by omega
        rw [harg]
      · have h1 : ¬ (dst + 1 ≤ j ∧ j < dst + 1 + n) := by omega
        rw [if_neg h1, if_neg hin, Function.update_noteq hj]

/-- The outer loop leaves every pixel outside the rows it writes as it was. -/
theorem cursor_render_rows_outside (max_width : Nat) (use_argb : Bool)
    (fg bg : Nat) (argb source mask : Nat → Nat) (width : Nat)
    (remaining : Nat) :
    ∀ (row dst_row argb_at : Nat) (image : Nat → Nat) (j : Nat),
      (∀ r, r < remaining → ∀ x, x < width →
        j ≠ dst_row + r * max_width + x) →
      cursor_render_rows max_width use_argb fg bg argb source mask width
          remaining row dst_row argb_at image j
        = image j := by
  induction remaining with
  | zero => intro row dst_row argb_at image j _; rfl
  | succ n ih =>
    intro row dst_row argb_at image j hout
    simp only [cursor_render_rows]
    rw [ih]
    · rw [cursor_render_row_spec]
      have h : ¬ (dst_row ≤ j ∧ j < dst_row + width) := by
        intro hin
        have h0 := hout 0 (by omega) (j - dst_row) (by omega)
        simp only [Nat.zero_mul, Nat.add_zero] at h0
        omega
      rw [if_neg h]
    · intro r hr x hx
      have h1 := hout (r + 1) (by omega) x hx
      rw [Nat.succ_mul] at h1
      omega

/-- The outer loop writes pixel `x` of its `r`-th row from the words of that
row, when a row of the cursor is no wider than a row of the image. -/
theorem cursor_render_rows_inside (max_width : Nat) (use_argb : Bool)
    (fg bg : Nat) (argb source mask : Nat → Nat) (width : Nat)
    (hwidth : width ≤ max_width) (remaining : Nat) :
    ∀ (row dst_row argb_at : Nat) (image : Nat → Nat) (r x : Nat),
      r < remaining → x < width →
      cursor_render_rows max_width use_argb fg bg argb source mask width
          remaining row dst_row argb_at image (dst_row + r * max_width + x)
        = cursor_pixel use_argb fg bg (mask (row + r) >>> x)
            (source (row + r) >>> x) (argb (argb_at + r * width + x)) := by
  induction remaining with
  | zero => intro row dst_row argb_at image r x hr _; omega
  | succ n ih =>
    intro row dst_row argb_at image r x hr hx
    simp only [cursor_render_rows]
    cases r with
    | zero =>
      rw [cursor_render_rows_outside]
      · rw [cursor_render_row_spec]
        have hin : dst_row ≤ dst_row + 0 * max_width + x
            ∧ dst_row + 0 * max_width + x < dst_row + width := by omega
        have hsub : dst_row + 0 * max_width + x - dst_row = x := by omega
        rw [if_pos hin, hsub]
        simp
      · intro r' _ x' _
        omega
    | succ r =>
      have hpos : dst_row + (r + 1) * max_width + x
          = dst_row + max_width + r * max_width + x := by
        rw [Nat.succ_mul]; omega
      have harg : argb_at + (r + 1) * width + x
          = argb_at + width + r * width + x := by
        rw [Nat.succ_mul]; omega
      have hrow : row + (r + 1) = row + 1 + r := by omega
      rw [hpos, harg, hrow]
      exact ih (row + 1) (dst_row + max_width) (argb_at + width) _ r x
        (by omega) hx

/-- Bit 0 of a word shifted right by `x` is bit `x` of the word. -/
theorem shifted_bit_iff (m x : Nat) :
    ((m >>> x) &&& 1 ≠ 0) ↔ m.testBit x = true := by
  unfold Nat.testBit
  rw [Nat.and_comm]
  simp

/-- C29: for a cursor of width at most 32, rendered into an image whose rows
are `max_width` ≥ 32 pixels apart, every pixel (x, y) with x < width and
y < height is set to 0 when bit x of mask word y is clear; otherwise to
argb[y * width + x] | 0xFF000000 when ARGB data is used, and for a glyph cursor
to the foreground colour when bit x of source word y is set and to the
background colour when it is clear, a colour being
0xFF000000 | (red & 0xFF) << 16 | (green & 0xFF) << 8 | (blue & 0xFF).  The
other pixels of the image, the size and the hotspot are left as they were, and
`__guac_drv_realize_cursor` renders with ARGB data exactly when the cursor has
some. -/
theorem cursor_render_pixels (max_width : Nat) (guac_cursor : guac_drv_cursor)
    (cursor : CursorRec) (use_argb : Bool)
    (hwidth : guac_cursor.width ≤ 32) (hmax : 32 ≤ max_width) :
    (∀ x y, x < guac_cursor.width → y < guac_cursor.height →
      (guac_drv_cursor_render max_width guac_cursor cursor use_argb).image
          (y * max_width + x)
        = if (cursor.bits.mask y).testBit x = false then 0
          else if use_argb then
            (cursor.bits.argb.getD (fun _ => 0)) (y * guac_cursor.width + x)
              ||| 0xFF000000
          else if (cursor.bits.source y).testBit x then
            0xFF000000 ||| ((0xFF &&& cursor.foreRed) <<< 16)
              ||| ((0xFF &&& cursor.foreGreen) <<< 8)
              ||| (0xFF &&& cursor.foreBlue)
          else
            0xFF000000 ||| ((0xFF &&& cursor.backRed) <<< 16)
              ||| ((0xFF &&& cursor.backGreen) <<< 8)
              ||| (0xFF &&& cursor.backBlue))
    ∧ (∀ j, (∀ y, y < guac_cursor.height → ∀ x, x < guac_cursor.width →
          j ≠ y * max_width + x) →
        (guac_drv_cursor_render max_width guac_cursor cursor use_argb).image j
          = guac_cursor.image j)
    ∧ (guac_drv_cursor_render max_width guac_cursor cursor use_argb).width
        = guac_cursor.width
    ∧ (guac_drv_cursor_render max_width guac_cursor cursor use_argb).height
        = guac_cursor.height
    ∧ (__guac_drv_realize_cursor max_width guac_cursor cursor).image
        = (guac_drv_cursor_render max_width
            { guac_cursor with
                width := cursor.bits.width, height := cursor.bits.height,
                hotspot_x := cursor.bits.xhot, hotspot_y := cursor.bits.yhot }
            cursor cursor.bits.argb.isSome).image := by
  refine ⟨?_, ?_, rfl, rfl, ?_⟩
  · intro x y hx hy
    have h := cursor_render_rows_inside max_width use_argb
      (cursor_color cursor.foreRed cursor.foreGreen cursor.foreBlue)
      (cursor_color cursor.backRed cursor.backGreen cursor.backBlue)
      (cursor.bits.argb.getD (fun _ => 0)) cursor.bits.source cursor.bits.mask
      guac_cursor.width (by omega) guac_cursor.height 0 0 0 guac_cursor.image
      y x hy hx
    simp only [Nat.zero_add] at h
    show cursor_render_rows max_width use_argb _ _ _ _ _ _ _ 0 0 0 _
      (y * max_width + x) = _
    rw [h]
    have hmask := shifted_bit_iff (cursor.bits.mask y) x
    have hsource := shifted_bit_iff (cursor.bits.source y) x
    unfold cursor_pixel cursor_color
    by_cases hm : (cursor.bits.mask y).testBit x = true
    · have hm1 : (cursor.bits.mask y >>> x) &&& 1 ≠ 0 := hmask.2 hm
      rw [if_pos hm1]
      have hm2 : ¬ ((cursor.bits.mask y).testBit x = false) := by simp [hm]
      rw [if_neg hm2]
      cases use_argb with
      | true => simp
      | false =>
        by_cases hs : (cursor.bits.source y).testBit x = true
        · have hs1 : (cursor.bits.source y >>> x) &&& 1 ≠ 0 := hsource.2 hs
          simp only [Bool.false_eq_true, if_false]
          rw [if_pos hs1, if_pos hs]
        · have hs1 : ¬ ((cursor.bits.source y >>> x) &&& 1 ≠ 0) :=
            fun h1 => hs (hsource.1 h1)
          simp only [Bool.false_eq_true, if_false]
          rw [if_neg hs1, if_neg hs]
    · have hm1 : ¬ ((cursor.bits.mask y >>> x) &&& 1 ≠ 0) :=
        fun h1 => hm (hmask.1 h1)
      have hm2 : (cursor.bits.mask y).testBit x = false := by simpa using hm
      rw [if_neg hm1, if_pos hm2]
  · intro j hout
    show cursor_render_rows max_width use_argb _ _ _ _ _ _ _ 0 0 0 _ j = _
    apply cursor_render_rows_outside
    intro r hr x hx
    have h := hout r hr x hx
    omega
  · unfold __guac_drv_realize_cursor
    cases cursor.bits.argb.isSome <;> rfl

/-- Witness of C29 on a glyph cursor of 2 by 2 pixels with a red foreground
and a white background, rendered into an image of rows 64 pixels apart that
held 7 everywhere: pixel (1, 0) is white, pixel (0, 1) is red, pixel (1, 1) is
transparent, and pixel 2 of row 0 still holds 7. -/
theorem cursor_render_pixels_witness :
    (guac_drv_cursor_render 64
        { sample_guac_cursor with width := 2, height := 2 }
        sample_glyph_cursor false).image (0 * 64 + 1) = 0xFFFFFFFF
    ∧ (guac_drv_cursor_render 64
        { sample_guac_cursor with width := 2, height := 2 }
        sample_glyph_cursor false).image (1 * 64 + 0) = 0xFFFF0000
    ∧ (guac_drv_cursor_render 64
        { sample_guac_cursor with width := 2, height := 2 }
        sample_glyph_cursor false).image (1 * 64 + 1) = 0
    ∧ (guac_drv_cursor_render 64
        { sample_guac_cursor with width := 2, height := 2 }
        sample_glyph_cursor false).image 2 = 7 :=
  ⟨((cursor_render_pixels 64
        { sample_guac_cursor with width := 2, height := 2 }
        sample_glyph_cursor false (by decide) (by decide)).1 1 0 (by decide)
        (by decide)).trans (by decide),
   ((cursor_render_pixels 64
        { sample_guac_cursor with width := 2, height := 2 }
        sample_glyph_cursor false (by decide) (by decide)).1 0 1 (by decide)
        (by decide)).trans (by decide),
   ((cursor_render_pixels 64
        { sample_guac_cursor with width := 2, height := 2 }
        sample_glyph_cursor false (by decide) (by decide)).1 1 1 (by decide)
        (by decide)).trans (by decide),
   by decide⟩

end GuacDrv
